import Mathlib

/-!
# Session registry, address normalisation and outbound dispatch

A shallow embedding of `pkg/whatsapp/whatsapp.go`.

* Go strings are Lean strings (valid UTF-8); `len` counts bytes, as in Go.
* A Go function that can hit a runtime panic (index out of range) returns an
  `Outcome`: either the value it returns or the panic.
* The messaging network client and the device store are external.  Their
  answers are read from a `Net` record of response functions, each of which may
  depend on the whole history of calls made so far, and every call made on them
  is appended to a log kept in the `World`.
-/

set_option autoImplicit false

namespace WhatsApp

/-! ## Go runtime -/

/-- Result of running a piece of Go code: it returns a value or it panics. -/
inductive Outcome (α : Type) where
  | ret (a : α)
  | panic (msg : String)
deriving DecidableEq, Repr

/-- A Go `error` value: `none` is `nil`, `some msg` is an error with that message. -/
abbrev GoError := Option String

/-- Go `len(s)` on a string: the number of bytes. -/
def len (s : String) : Nat := s.utf8ByteSize

/-- Go `strings.ContainsRune(s, r)`. -/
def ContainsRune (s : String) (r : Char) : Bool := s.data.contains r

/-- Pieces of a character list between occurrences of `sep`. -/
def splitChars (sep : Char) : List Char → List (List Char)
  | [] => [[]]
  | c :: cs =>
    if c = sep then [] :: splitChars sep cs
    else
      match splitChars sep cs with
      | [] => [[c]]
      | b :: bs => (c :: b) :: bs

/-- Go `strings.Split(s, sep)` for a separator of one character. -/
def Split (s : String) (sep : Char) : List String :=
  (splitChars sep s.data).map String.mk

/-! ## Addresses (`types.JID` of the network library) -/

/-- A network address: local part and server.  The device and agent parts of the
library type are absent from every address this file builds. -/
structure JID where
  User : String
  Server : String
deriving DecidableEq, Repr

/-- The server of individual accounts, `types.DefaultUserServer`. -/
def DefaultUserServer : String := "s.whatsapp.net"

/-- The server of group chats, `types.GroupServer`. -/
def GroupServer : String := "g.us"

/-- Library constructor `types.NewJID(user, server)`. -/
def NewJID (user server : String) : JID := { User := user, Server := server }

/-- The zero address `types.EmptyJID`. -/
def EmptyJID : JID := { User := "", Server := "" }

/-- Library method `JID.IsEmpty`: an address is empty when it has no server. -/
def JID.IsEmpty (jid : JID) : Bool := len jid.Server == 0

/-- Library method `JID.String` for an address without device part. -/
def JID.String (jid : JID) : String :=
  if len jid.User > 0 then jid.User ++ "@" ++ jid.Server else jid.Server

/-! ## Address normaliser -/

/-- `WhatsAppDecomposeJID`: keep what stands before the first `@`, then drop one
leading `+`.  The access `id[0]` panics when the string is empty at that point. -/
def WhatsAppDecomposeJID (id : String) : Outcome String :=
  -- if strings.ContainsRune(id, '@') { buffers := strings.Split(id, "@"); id = buffers[0] }
  let afterAt : Outcome String :=
    if ContainsRune id '@' then
      match Split id '@' with
      | [] => Outcome.panic "runtime error: index out of range [0] with length 0"
      | b :: _ => Outcome.ret b
    else Outcome.ret id
  match afterAt with
  | Outcome.panic msg => Outcome.panic msg
  | Outcome.ret id1 =>
    -- if id[0] == '+' { id = id[1:] }
    match id1.data with
    | [] => Outcome.panic "runtime error: index out of range [0] with length 0"
    | c :: rest => if c = '+' then Outcome.ret (String.mk rest) else Outcome.ret id1

/-- `WhatsAppComposeJID`: decompose, then classify by `-` or by length. -/
def WhatsAppComposeJID (id : String) : Outcome JID :=
  match WhatsAppDecomposeJID id with
  | Outcome.panic msg => Outcome.panic msg
  | Outcome.ret id1 =>
    if ContainsRune id1 '-' || len id1 >= 18 then
      Outcome.ret (NewJID id1 GroupServer)
    else
      Outcome.ret (NewJID id1 DefaultUserServer)

/-- The part of a raw identity string before its first `@` (all of it when there
is none) with one leading `+` removed: the local part as the specification
words it. -/
def localPart (raw : String) : String :=
  match raw.data.takeWhile (fun c => c != '@') with
  | '+' :: rest => String.mk rest
  | cs => String.mk cs

/-- Go `fmt.Sprintf` restricted to the verb `%v` applied to string arguments:
each `%v` is replaced by the next argument. -/
def sprintfChars : List Char → List String → List Char
  | '%' :: 'v' :: rest, a :: args => a.data ++ sprintfChars rest args
  | '%' :: 'v' :: rest, [] => "%!v(MISSING)".data ++ sprintfChars rest []
  | c :: rest, args => c :: sprintfChars rest args
  | [], _ => []

/-- Go `fmt.Sprintf(format, args...)` for `%v` and string arguments. -/
def Sprintf (format : String) (args : List String) : String :=
  String.mk (sprintfChars format.data args)

/-! ## Payloads and answers of the network library -/

/-- A `float64` carried through unchanged; only its bit pattern is kept. -/
structure Float64 where
  bits : Nat
deriving DecidableEq, Repr

/-- The message payloads (`waproto.Message`) this file builds. -/
inductive Message where
  | Conversation (text : String)
  | LocationMessage (DegreesLatitude DegreesLongitude : Float64)
  | ContactMessage (DisplayName Vcard : String)
deriving DecidableEq, Repr

/-- One entry of the answer to the is-on-network query (`types.IsOnWhatsAppResponse`). -/
structure IsOnWhatsAppResponse where
  Query : String
  JID : JID
  IsIn : Bool
deriving DecidableEq, Repr

/-- A joined group as the library reports it (`types.GroupInfo`). -/
structure GroupInfo where
  JID : JID
  Name : String
deriving DecidableEq, Repr

/-- Availability states of `types.Presence`. -/
inductive Presence where
  | PresenceAvailable
  | PresenceUnavailable
deriving DecidableEq, Repr

/-- Conversation states of `types.ChatPresence`. -/
inductive ChatPresence where
  | ChatPresenceComposing
  | ChatPresencePaused
deriving DecidableEq, Repr

/-- Media kinds of `types.ChatPresenceMedia`. -/
inductive ChatPresenceMedia where
  | ChatPresenceMediaText
  | ChatPresenceMediaAudio
deriving DecidableEq, Repr

/-- One item of the code-delivery stream (`whatsmeow.QRChannelItem`); `Timeout`
holds the whole seconds `int(evt.Timeout.Seconds())`. -/
structure QRChannelItem where
  Event : String
  Code : String
  Timeout : Int
deriving DecidableEq, Repr

/-- Client kinds of `whatsmeow.PairClientType`. -/
inductive PairClientType where
  | PairClientUnknown | PairClientChrome | PairClientEdge | PairClientFirefox
  | PairClientIE | PairClientOpera | PairClientSafari | PairClientElectron
  | PairClientUWP | PairClientOtherWebClient
deriving DecidableEq, Repr

/-- A call made on the device store or on the network client of session `jid`. -/
inductive Call where
  | NewDevice
  | SetProxyAddress (jid : String) (url : String)
  | Connect (jid : String)
  | Disconnect (jid : String)
  | Logout (jid : String)
  | StoreDelete (jid : String)
  | SendPresence (jid : String) (state : Presence)
  | SendChatPresence (jid : String) (target : JID) (state : ChatPresence) (media : ChatPresenceMedia)
  | IsOnWhatsApp (jid : String) (phones : List String)
  | GenerateMessageID (jid : String)
  | SendMessage (jid : String) (target : JID) (message : Message) (id : String)
  | GetJoinedGroups (jid : String)
  | JoinGroupWithLink (jid : String) (link : String)
  | LeaveGroup (jid : String) (group : JID)
  | GetQRChannel (jid : String)
  | PairPhone (jid : String) (phone : String) (showPushNotification : Bool)
      (clientType : PairClientType) (clientDisplayName : String)
deriving DecidableEq, Repr

/-- What the network client and the device store answer.  Every answer may depend
on the calls made so far (first argument) and on the session the call is made
on.  A Go result pair `(value, err)` is a Lean pair. -/
structure Net where
  IsConnected : List Call → String → Bool
  IsLoggedIn : List Call → String → Bool
  Logout : List Call → String → GoError
  StoreDelete : List Call → String → GoError
  IsOnWhatsApp : List Call → String → List String → List IsOnWhatsAppResponse × GoError
  GenerateMessageID : List Call → String → String
  SendMessage : List Call → String → JID → Message → String → GoError
  GetJoinedGroups : List Call → String → List GroupInfo × GoError
  JoinGroupWithLink : List Call → String → String → JID × GoError
  LeaveGroup : List Call → String → JID → GoError
  Connect : List Call → String → GoError
  GetQRChannel : List Call → String → List QRChannelItem × GoError
  PairPhone : List Call → String → String → Bool → PairClientType → String → String × GoError

/-! ## Session handles, registry and process state -/

/-- A device record of the store (`store.Device`); `ID` is the device identity,
absent until the device is linked. -/
structure Device where
  ID : Option JID
deriving DecidableEq, Repr

/-- A session handle (`*whatsmeow.Client`): `addr` tells handles apart the way
the pointer does, the other fields are the ones this file reads or assigns. -/
structure Client where
  addr : Nat
  Store : Device
  proxyAddress : Option String
  EnableAutoReconnect : Bool
  AutoTrustIdentity : Bool
  DontSendSelfBroadcast : Bool
deriving DecidableEq, Repr

/-- Platform variants of `waproto.DeviceProps_PlatformType`. -/
inductive PlatformType where
  | UNKNOWN | CHROME | FIREFOX | IE | OPERA | SAFARI | EDGE | DESKTOP | IPAD
  | ANDROID_TABLET | OHANA | ALOHA | CATALINA | TCL_TV | IOS_PHONE | IOS_CATALYST
  | ANDROID_PHONE | ANDROID_AMBIGUOUS | WEAR_OS | UWP
deriving DecidableEq, Repr

/-- The library-wide device properties `store.DeviceProps`. -/
structure DeviceProps where
  Os : Option String
  PlatformType : Option PlatformType
  RequireFullSync : Option Bool
  Primary : Option Nat
  Secondary : Option Nat
  Tertiary : Option Nat
deriving DecidableEq, Repr

/-- The package variable `version`. -/
structure Version where
  Major : Int
  Minor : Int
  Patch : Int
deriving DecidableEq, Repr

/-- What is fixed at process start: the proxy URL read by `init`, the operating
system the binary runs on, the integer environment variables, and the values the
library constructor gives the three behaviour flags of a new handle. -/
structure Config where
  WhatsAppClientProxyURL : String
  GOOS : String
  GetEnvInt : String → Int × GoError
  /-- the values the library constructor `whatsmeow.NewClient` gives the flags -/
  defaultAutoReconnect : Bool
  defaultAutoTrustIdentity : Bool
  defaultDontSendSelfBroadcast : Bool

/-- The mutable state of the process: the registry `WhatsAppClient` (a Go map,
kept as a list of entries), two library globals, the package variable `version`,
the number of handles constructed so far, and the calls made so far (oldest
first). -/
structure World where
  WhatsAppClient : List (String × Client)
  IndentXML : Bool
  DeviceProps : DeviceProps
  version : Version
  clients : Nat
  calls : List Call
deriving DecidableEq, Repr

/-- Go map read `m[jid]`: the handle, or `nil` (`none`) when there is no entry. -/
def mapGet : List (String × Client) → String → Option Client
  | [], _ => none
  | (k, c) :: rest, jid => if k = jid then some c else mapGet rest jid

/-- Go `delete(m, jid)`. -/
def mapDelete (m : List (String × Client)) (jid : String) : List (String × Client) :=
  m.filter (fun e => decide (e.1 ≠ jid))

/-- Go map write `m[jid] = c`. -/
def mapSet (m : List (String × Client)) (jid : String) (c : Client) : List (String × Client) :=
  (jid, c) :: mapDelete m jid

/-- The world after one more call on the store or the network client. -/
def World.record (w : World) (c : Call) : World :=
  { w with calls := w.calls ++ [c] }

/-- Go conversion `uint32(n)` of an `int`. -/
def uint32 (n : Int) : Nat := (n % 4294967296).toNat

/-- Go map update through the stored pointer, `m[jid].field = v`. -/
def mapModify (m : List (String × Client)) (jid : String) (f : Client → Client) :
    List (String × Client) :=
  m.map (fun e => if e.1 = jid then (e.1, f e.2) else e)

/-! ## Error values -/

/-- Error of an operation on a key without handle. -/
def errNotValid : String := "WhatsApp Client is not Valid"

/-- Error of the health check when the transport is down. -/
def errNotConnected : String := "WhatsApp Client is not Connected"

/-- Error of the health check when the handle is not authenticated. -/
def errNotLoggedIn : String := "WhatsApp Client is not Logged In"

/-- Error of the registration gate. -/
def errNotRegistered : String := "WhatsApp Personal ID is Not Registered"

/-- Error of group-leave on an address that is not a group. -/
def errNotGroupServer : String := "WhatsApp Group ID is Not Group Server"

/-- Error text of the store-identity check. -/
def errStoreEmpty : String :=
  "WhatsApp Client Store ID is Empty, Please Re-Login and Scan QR Code Again"

/-- Text of the Go runtime panic on `xs[0]` for an empty `xs`. -/
def panicIndex : String := "runtime error: index out of range [0] with length 0"

/-! ## Session registry -/

/-- `WhatsAppGetUserAgent`; the switch is on the lower-cased argument (ASCII
letters, which covers the one call site). -/
def WhatsAppGetUserAgent (agentType : String) : PlatformType :=
  let lowered := String.mk (agentType.data.map Char.toLower)
  if lowered = "desktop" then PlatformType.DESKTOP
  else if lowered = "mac" then PlatformType.CATALINA
  else if lowered = "android" then PlatformType.ANDROID_AMBIGUOUS
  else if lowered = "android-phone" then PlatformType.ANDROID_PHONE
  else if lowered = "andorid-tablet" then PlatformType.ANDROID_TABLET
  else if lowered = "ios-phone" then PlatformType.IOS_PHONE
  else if lowered = "ios-catalyst" then PlatformType.IOS_CATALYST
  else if lowered = "ipad" then PlatformType.IPAD
  else if lowered = "wearos" then PlatformType.WEAR_OS
  else if lowered = "ie" then PlatformType.IE
  else if lowered = "edge" then PlatformType.EDGE
  else if lowered = "chrome" then PlatformType.CHROME
  else if lowered = "safari" then PlatformType.SAFARI
  else if lowered = "firefox" then PlatformType.FIREFOX
  else if lowered = "opera" then PlatformType.OPERA
  else if lowered = "uwp" then PlatformType.UWP
  else if lowered = "aloha" then PlatformType.ALOHA
  else if lowered = "tv-tcl" then PlatformType.TCL_TV
  else PlatformType.UNKNOWN

/-- `WhatsAppGetUserOS`. -/
def WhatsAppGetUserOS (cfg : Config) : String :=
  if cfg.GOOS = "windows" then "Windows"
  else if cfg.GOOS = "darwin" then "macOS"
  else "Linux"

/-- Store call `WhatsAppDatastore.NewDevice()`: a record without identity. -/
def NewDevice : Device := { ID := none }

/-- Library constructor `whatsmeow.NewClient(device, nil)`, at address `addr`. -/
def NewClient (cfg : Config) (device : Device) (addr : Nat) : Client :=
  { addr := addr, Store := device, proxyAddress := none,
    EnableAutoReconnect := cfg.defaultAutoReconnect,
    AutoTrustIdentity := cfg.defaultAutoTrustIdentity,
    DontSendSelfBroadcast := cfg.defaultDontSendSelfBroadcast }

/-- `WhatsAppInitClient`. -/
def WhatsAppInitClient (cfg : Config) (w : World) (device : Option Device) (jid : String) :
    World :=
  -- wabin.IndentXML = true
  let w0 : World := { w with IndentXML := true }
  match mapGet w0.WhatsAppClient jid with
  | some _ => w0
  | none =>
    -- if device == nil { device = WhatsAppDatastore.NewDevice() }
    let device1 : Device := match device with
      | none => NewDevice
      | some d => d
    let w1 : World := match device with
      | none => w0.record Call.NewDevice
      | some _ => w0
    -- Set Client Properties
    let props1 : DeviceProps :=
      { w1.DeviceProps with
        Os := some (WhatsAppGetUserOS cfg),
        PlatformType := some (WhatsAppGetUserAgent "chrome"),
        RequireFullSync := some false }
    -- Set Client Versions
    let major := cfg.GetEnvInt "WHATSAPP_VERSION_MAJOR"
    let props2 : DeviceProps :=
      if major.2 = none then { props1 with Primary := some (uint32 major.1) } else props1
    let minor := cfg.GetEnvInt "WHATSAPP_VERSION_MINOR"
    let props3 : DeviceProps :=
      if minor.2 = none then { props2 with Secondary := some (uint32 minor.1) } else props2
    let patch := cfg.GetEnvInt "WHATSAPP_VERSION_PATCH"
    let props4 : DeviceProps :=
      if patch.2 = none then { props3 with Tertiary := some (uint32 patch.1) } else props3
    -- WhatsAppClient[jid] = whatsmeow.NewClient(device, nil)
    let w2 : World :=
      { w1 with
        DeviceProps := props4,
        version := { Major := major.1, Minor := minor.1, Patch := patch.1 },
        clients := w1.clients + 1,
        WhatsAppClient := mapSet w1.WhatsAppClient jid (NewClient cfg device1 w1.clients) }
    -- if len(WhatsAppClientProxyURL) > 0 { WhatsAppClient[jid].SetProxyAddress(...) }
    let w3 : World :=
      if len cfg.WhatsAppClientProxyURL > 0 then
        { (w2.record (Call.SetProxyAddress jid cfg.WhatsAppClientProxyURL)) with
          WhatsAppClient := mapModify w2.WhatsAppClient jid
            (fun c => { c with proxyAddress := some cfg.WhatsAppClientProxyURL }) }
      else w2
    -- WhatsAppClient[jid].EnableAutoReconnect = true
    let w4 : World :=
      { w3 with
        WhatsAppClient := mapModify w3.WhatsAppClient jid
          (fun c => { c with EnableAutoReconnect := true }) }
    -- WhatsAppClient[jid].AutoTrustIdentity = true
    let w5 : World :=
      { w4 with
        WhatsAppClient := mapModify w4.WhatsAppClient jid
          (fun c => { c with AutoTrustIdentity := true }) }
    -- WhatsAppClient[jid].DontSendSelfBroadcast = true
    { w5 with
        WhatsAppClient := mapModify w5.WhatsAppClient jid
          (fun c => { c with DontSendSelfBroadcast := true }) }

/-- `WhatsAppPresence`: the error of the presence call is dropped. -/
def WhatsAppPresence (w : World) (jid : String) (isAvailable : Bool) : World :=
  if isAvailable then
    w.record (Call.SendPresence jid Presence.PresenceAvailable)
  else
    w.record (Call.SendPresence jid Presence.PresenceUnavailable)

/-- `WhatsAppComposeStatus`: the error of the chat-presence call is dropped. -/
def WhatsAppComposeStatus (w : World) (jid : String) (rjid : JID)
    (isComposing : Bool) (isAudio : Bool) : World :=
  let typeCompose : ChatPresence :=
    if isComposing then ChatPresence.ChatPresenceComposing
    else ChatPresence.ChatPresencePaused
  let typeComposeMedia : ChatPresenceMedia :=
    if isAudio then ChatPresenceMedia.ChatPresenceMediaAudio
    else ChatPresenceMedia.ChatPresenceMediaText
  w.record (Call.SendChatPresence jid rjid typeCompose typeComposeMedia)

/-- `WhatsAppLogout`. -/
def WhatsAppLogout (net : Net) (w : World) (jid : String) : GoError × World :=
  match mapGet w.WhatsAppClient jid with
  | some _ =>
    -- the second test of the same map entry
    match mapGet w.WhatsAppClient jid with
    | some _ =>
      -- WhatsAppPresence(jid, false)
      let w1 := WhatsAppPresence w jid false
      -- err = WhatsAppClient[jid].Logout()
      let err := net.Logout w1.calls jid
      let w2 := w1.record (Call.Logout jid)
      match err with
      | some _ =>
        -- WhatsAppClient[jid].Disconnect()
        let w3 := w2.record (Call.Disconnect jid)
        -- err = WhatsAppClient[jid].Store.Delete()
        let err2 := net.StoreDelete w3.calls jid
        let w4 := w3.record (Call.StoreDelete jid)
        match err2 with
        | some e2 => (some e2, w4)
        | none =>
          -- WhatsAppClient[jid] = nil; delete(WhatsAppClient, jid)
          (none, { w4 with WhatsAppClient := mapDelete w4.WhatsAppClient jid })
      | none =>
        (none, { w2 with WhatsAppClient := mapDelete w2.WhatsAppClient jid })
    | none => (some errStoreEmpty, w)
  | none => (some errNotValid, w)

/-- `WhatsAppIsClientOK`. -/
def WhatsAppIsClientOK (net : Net) (w : World) (jid : String) : GoError :=
  if !net.IsConnected w.calls jid then some errNotConnected
  else if !net.IsLoggedIn w.calls jid then some errNotLoggedIn
  else none

/-! ## Registration validator -/

/-- `WhatsAppGetJID`: ask the network whether `id` is on it.  The access
`infos[0]` panics when the answer has no entry. -/
def WhatsAppGetJID (net : Net) (w : World) (jid : String) (id : String) :
    Outcome JID × World :=
  match mapGet w.WhatsAppClient jid with
  | some _ =>
    -- ids = append(ids, "+"+id)
    let ids : List String := [] ++ ["+" ++ id]
    -- infos, err := WhatsAppClient[jid].IsOnWhatsApp(ids)
    let answer := net.IsOnWhatsApp w.calls jid ids
    let w1 := w.record (Call.IsOnWhatsApp jid ids)
    match answer.2 with
    | none =>
      match answer.1 with
      | [] => (Outcome.panic panicIndex, w1)
      | info :: _ =>
        if info.IsIn then (Outcome.ret info.JID, w1) else (Outcome.ret EmptyJID, w1)
    | some _ => (Outcome.ret EmptyJID, w1)
  | none => (Outcome.ret EmptyJID, w)

/-- `WhatsAppCheckJID`: the registration gate. -/
def WhatsAppCheckJID (net : Net) (w : World) (jid : String) (id : String) :
    Outcome (JID × GoError) × World :=
  match mapGet w.WhatsAppClient jid with
  | some _ =>
    -- remoteJID := WhatsAppComposeJID(id)
    match WhatsAppComposeJID id with
    | Outcome.panic msg => (Outcome.panic msg, w)
    | Outcome.ret remoteJID =>
      if remoteJID.Server ≠ GroupServer then
        match WhatsAppGetJID net w jid remoteJID.String with
        | (Outcome.panic msg, w1) => (Outcome.panic msg, w1)
        | (Outcome.ret found, w1) =>
          if found.IsEmpty then
            (Outcome.ret (EmptyJID, some errNotRegistered), w1)
          else (Outcome.ret (remoteJID, none), w1)
      else (Outcome.ret (remoteJID, none), w)
  | none => (Outcome.ret (EmptyJID, none), w)

/-- `WhatsAppCheckRegistered`. -/
def WhatsAppCheckRegistered (net : Net) (w : World) (jid : String) (id : String) :
    Outcome GoError × World :=
  match mapGet w.WhatsAppClient jid with
  | some _ =>
    match WhatsAppIsClientOK net w jid with
    | some err => (Outcome.ret (some err), w)
    | none =>
      match WhatsAppCheckJID net w jid id with
      | (Outcome.panic msg, w1) => (Outcome.panic msg, w1)
      | (Outcome.ret (_, some err), w1) => (Outcome.ret (some err), w1)
      | (Outcome.ret (remoteJID, none), w1) =>
        if remoteJID.IsEmpty || remoteJID.Server = GroupServer then
          (Outcome.ret (some errNotRegistered), w1)
        else (Outcome.ret none, w1)
  | none => (Outcome.ret (some errNotValid), w)

/-! ## Message dispatcher -/

/-- The part the three send functions share after the payload is chosen: health
check, registration gate, presence on, message id, submit, and the deferred
presence off, which runs on every return taken after the `defer` statement. -/
def sendWith (net : Net) (w : World) (jid : String) (rjid : String)
    (msgContent : Message) : Outcome (String × GoError) × World :=
  match mapGet w.WhatsAppClient jid with
  | some _ =>
    -- err = WhatsAppIsClientOK(jid)
    match WhatsAppIsClientOK net w jid with
    | some err => (Outcome.ret ("", some err), w)
    | none =>
      -- remoteJID, err := WhatsAppCheckJID(jid, rjid)
      match WhatsAppCheckJID net w jid rjid with
      | (Outcome.panic msg, w1) => (Outcome.panic msg, w1)
      | (Outcome.ret (_, some err), w1) => (Outcome.ret ("", some err), w1)
      | (Outcome.ret (remoteJID, none), w1) =>
        -- WhatsAppPresence(jid, true); WhatsAppComposeStatus(jid, remoteJID, true, false)
        let w2 := WhatsAppPresence w1 jid true
        let w3 := WhatsAppComposeStatus w2 jid remoteJID true false
        -- ID: WhatsAppClient[jid].GenerateMessageID()
        let msgID := net.GenerateMessageID w3.calls jid
        let w4 := w3.record (Call.GenerateMessageID jid)
        -- _, err = WhatsAppClient[jid].SendMessage(ctx, remoteJID, msgContent, msgExtra)
        let err := net.SendMessage w4.calls jid remoteJID msgContent msgID
        let w5 := w4.record (Call.SendMessage jid remoteJID msgContent msgID)
        -- deferred: WhatsAppComposeStatus(jid, remoteJID, false, false); WhatsAppPresence(jid, false)
        let w6 := WhatsAppComposeStatus w5 jid remoteJID false false
        let w7 := WhatsAppPresence w6 jid false
        match err with
        | some e => (Outcome.ret ("", some e), w7)
        | none => (Outcome.ret (msgID, none), w7)
  | none => (Outcome.ret ("", some errNotValid), w)

/-- `WhatsAppSendText`: the payload is the plain text body. -/
def WhatsAppSendText (net : Net) (w : World) (jid : String) (rjid : String)
    (message : String) : Outcome (String × GoError) × World :=
  sendWith net w jid rjid (Message.Conversation message)

/-- `WhatsAppSendLocation`: the payload is the latitude and longitude pair. -/
def WhatsAppSendLocation (net : Net) (w : World) (jid : String) (rjid : String)
    (latitude : Float64) (longitude : Float64) : Outcome (String × GoError) × World :=
  sendWith net w jid rjid (Message.LocationMessage latitude longitude)

/-- The vCard text `WhatsAppSendContact` builds with `fmt.Sprintf`. -/
def msgVCard (contactName : String) (contactNumber : String) : String :=
  Sprintf "BEGIN:VCARD\nVERSION:3.0\nN:;%v;;;\nFN:%v\nTEL;type=CELL;waid=%v:+%v\nEND:VCARD"
    [contactName, contactName, contactNumber, contactNumber]

/-- `WhatsAppSendContact`: the payload is the display name and the vCard. -/
def WhatsAppSendContact (net : Net) (w : World) (jid : String) (rjid : String)
    (contactName : String) (contactNumber : String) : Outcome (String × GoError) × World :=
  sendWith net w jid rjid
    (Message.ContactMessage contactName (msgVCard contactName contactNumber))

/-! ## Group operations -/

/-- `WhatsAppGroupGet`. -/
def WhatsAppGroupGet (net : Net) (w : World) (jid : String) :
    (List GroupInfo × GoError) × World :=
  match mapGet w.WhatsAppClient jid with
  | some _ =>
    match WhatsAppIsClientOK net w jid with
    | some err => (([], some err), w)
    | none =>
      -- groups, err := WhatsAppClient[jid].GetJoinedGroups()
      let answer := net.GetJoinedGroups w.calls jid
      let w1 := w.record (Call.GetJoinedGroups jid)
      match answer.2 with
      | some err => (([], some err), w1)
      | none =>
        -- for _, group := range groups { gids = append(gids, *group) }
        ((answer.1.foldl (fun gids group => gids ++ [group]) [], none), w1)
  | none => (([], some errNotValid), w)

/-- `WhatsAppGroupJoin`. -/
def WhatsAppGroupJoin (net : Net) (w : World) (jid : String) (link : String) :
    (String × GoError) × World :=
  match mapGet w.WhatsAppClient jid with
  | some _ =>
    match WhatsAppIsClientOK net w jid with
    | some err => (("", some err), w)
    | none =>
      -- gid, err := WhatsAppClient[jid].JoinGroupWithLink(link)
      let answer := net.JoinGroupWithLink w.calls jid link
      let w1 := w.record (Call.JoinGroupWithLink jid link)
      match answer.2 with
      | some err => (("", some err), w1)
      | none => ((answer.1.String, none), w1)
  | none => (("", some errNotValid), w)

/-- `WhatsAppGroupLeave`. -/
def WhatsAppGroupLeave (net : Net) (w : World) (jid : String) (gjid : String) :
    Outcome GoError × World :=
  match mapGet w.WhatsAppClient jid with
  | some _ =>
    match WhatsAppIsClientOK net w jid with
    | some err => (Outcome.ret (some err), w)
    | none =>
      -- groupJID, err := WhatsAppCheckJID(jid, gjid)
      match WhatsAppCheckJID net w jid gjid with
      | (Outcome.panic msg, w1) => (Outcome.panic msg, w1)
      | (Outcome.ret (_, some err), w1) => (Outcome.ret (some err), w1)
      | (Outcome.ret (groupJID, none), w1) =>
        if groupJID.Server ≠ GroupServer then
          (Outcome.ret (some errNotGroupServer), w1)
        else
          -- return WhatsAppClient[jid].LeaveGroup(groupJID)
          (Outcome.ret (net.LeaveGroup w1.calls jid groupJID),
            w1.record (Call.LeaveGroup jid groupJID))
  | none => (Outcome.ret (some errNotValid), w)

/-! ## Vocabulary of the specification -/

/-- The answer to the is-on-network query is a positive, non-empty match: the
query did not fail and the first entry is on the network with an address that is
not empty. -/
def positiveMatch (answer : List IsOnWhatsAppResponse × GoError) : Bool :=
  match answer.2, answer.1 with
  | none, info :: _ => info.IsIn && !info.JID.IsEmpty
  | _, _ => false

/-- The answer to the is-on-network query is negative: the query did not fail
and the first entry is not a positive, non-empty match. -/
def negativeAnswer (answer : List IsOnWhatsAppResponse × GoError) : Bool :=
  match answer.2, answer.1 with
  | none, info :: _ => !(info.IsIn && !info.JID.IsEmpty)
  | _, _ => false

/-- The is-on-network query failed. -/
def queryErrors (answer : List IsOnWhatsAppResponse × GoError) : Bool :=
  answer.2.isSome

/-- The phone list the registration gate sends for the address `remoteJID`. -/
def gateQuery (remoteJID : JID) : List String := ["+" ++ remoteJID.String]

/-- The presence and submit calls among the calls on the network client. -/
def isPresenceOrSubmit : Call → Bool
  | Call.SendPresence _ _ => true
  | Call.SendChatPresence _ _ _ _ => true
  | Call.SendMessage _ _ _ _ => true
  | _ => false

/-- The group-leave calls among the calls on the network client. -/
def isLeaveGroup : Call → Bool
  | Call.LeaveGroup _ _ => true
  | _ => false

/-- The store calls that create a device record. -/
def isNewDevice : Call → Bool
  | Call.NewDevice => true
  | _ => false

/-- The presence and submit calls of one send, in the order the specification
gives: availability on, composing on, submit, composing off, availability off. -/
def sendSequence (jid : String) (remoteJID : JID) (content : Message) (id : String) :
    List Call :=
  [ Call.SendPresence jid Presence.PresenceAvailable,
    Call.SendChatPresence jid remoteJID ChatPresence.ChatPresenceComposing
      ChatPresenceMedia.ChatPresenceMediaText,
    Call.SendMessage jid remoteJID content id,
    Call.SendChatPresence jid remoteJID ChatPresence.ChatPresencePaused
      ChatPresenceMedia.ChatPresenceMediaText,
    Call.SendPresence jid Presence.PresenceUnavailable ]

/-- The registry holds at most one entry per session key. -/
def oneHandlePerKey (w : World) : Prop := (w.WhatsAppClient.map Prod.fst).Nodup

/-- A step that writes the registry: creation of a handle or logout. -/
inductive RegistryStep where
  | init (device : Option Device) (jid : String)
  | logout (jid : String)

/-- Run registry steps one after the other. -/
def runSteps (cfg : Config) (net : Net) : World → List RegistryStep → World
  | w, [] => w
  | w, RegistryStep.init device jid :: rest =>
    runSteps cfg net (WhatsAppInitClient cfg w device jid) rest
  | w, RegistryStep.logout jid :: rest =>
    runSteps cfg net (WhatsAppLogout net w jid).2 rest

/-! ## A scripted network client and a small world, for concrete runs -/

/-- A network client whose answers do not depend on the history. -/
def scriptedNet (connected loggedIn : Bool) (logoutErr deleteErr : GoError)
    (onNetwork : List IsOnWhatsAppResponse × GoError) (submitErr leaveErr : GoError) : Net :=
  { IsConnected := fun _ _ => connected,
    IsLoggedIn := fun _ _ => loggedIn,
    Logout := fun _ _ => logoutErr,
    StoreDelete := fun _ _ => deleteErr,
    IsOnWhatsApp := fun _ _ _ => onNetwork,
    GenerateMessageID := fun _ _ => "3EB0A1B2C3",
    SendMessage := fun _ _ _ _ _ => submitErr,
    GetJoinedGroups := fun _ _ => ([], none),
    JoinGroupWithLink := fun _ _ _ => (NewJID "120363040000000000" GroupServer, none),
    LeaveGroup := fun _ _ _ => leaveErr,
    Connect := fun _ _ => none,
    GetQRChannel := fun _ _ => ([], none),
    PairPhone := fun _ _ _ _ _ _ => ("ABCD-EFGH", none) }

/-- A configuration without proxy and without version variables. -/
def plainConfig : Config :=
  { WhatsAppClientProxyURL := "",
    GOOS := "linux",
    GetEnvInt := fun _ => (0, some "not set"),
    defaultAutoReconnect := false,
    defaultAutoTrustIdentity := false,
    defaultDontSendSelfBroadcast := false }

/-- The state of a fresh process: empty registry, nothing called yet. -/
def emptyWorld : World :=
  { WhatsAppClient := [],
    IndentXML := false,
    DeviceProps := { Os := none, PlatformType := none, RequireFullSync := none,
                     Primary := none, Secondary := none, Tertiary := none },
    version := { Major := 0, Minor := 0, Patch := 0 },
    clients := 0,
    calls := [] }

/-- A handle linked to a device, configured as `WhatsAppInitClient` does. -/
def linkedClient : Client :=
  { addr := 0, Store := { ID := some (NewJID "620000000001" DefaultUserServer) },
    proxyAddress := none, EnableAutoReconnect := true, AutoTrustIdentity := true,
    DontSendSelfBroadcast := true }

/-- A world with one session, key `"620000000001"`, holding `linkedClient`. -/
def oneSessionWorld : World :=
  { emptyWorld with
    IndentXML := true,
    clients := 1,
    WhatsAppClient := [("620000000001", linkedClient)] }

/-- An answer that finds `"620000000002"` on the network. -/
def registeredAnswer : List IsOnWhatsAppResponse × GoError :=
  ([{ Query := "+620000000002@s.whatsapp.net",
      JID := NewJID "620000000002" DefaultUserServer, IsIn := true }], none)

/-- An answer that does not find the number on the network. -/
def unknownAnswer : List IsOnWhatsAppResponse × GoError :=
  ([{ Query := "+620000000002@s.whatsapp.net", JID := EmptyJID, IsIn := false }], none)

/-- An answer without error and without any entry. -/
def emptyAnswer : List IsOnWhatsAppResponse × GoError := ([], none)

/-! ## Linking controller -/

/-- Result of Go code that reads from a channel: it returns a value, or it waits
for ever because nothing is delivered. -/
inductive Run (α : Type) where
  | returns (a : α)
  | blocks
deriving DecidableEq, Repr

/-- The external encoders behind the scannable code: `Encode` is
`qrCode.Encode(content, qrCode.Medium, 256)` with its error dropped, and
`EncodeToString` is `base64.StdEncoding.EncodeToString`. -/
structure Imaging where
  Encode : String → List Nat
  EncodeToString : List Nat → String

/-- The text both login flows return in place of a code after a reconnect. -/
def reconnectedText : String := "WhatsApp Client is Reconnected"

/-- `WhatsAppReconnect`. -/
def WhatsAppReconnect (net : Net) (w : World) (jid : String) : GoError × World :=
  match mapGet w.WhatsAppClient jid with
  | some _ =>
    -- WhatsAppClient[jid].Disconnect()
    let w1 := w.record (Call.Disconnect jid)
    -- if WhatsAppClient[jid] != nil
    match mapGet w1.WhatsAppClient jid with
    | some _ =>
      -- err := WhatsAppClient[jid].Connect()
      let err := net.Connect w1.calls jid
      let w2 := w1.record (Call.Connect jid)
      match err with
      | some e => (some e, w2)
      | none => (none, w2)
    | none => (some errStoreEmpty, w1)
  | none => (some errNotValid, w)

/-- The first item of the stream whose event is `"code"`: the one the reader
goroutine hands over first. -/
def firstCode : List QRChannelItem → Option QRChannelItem
  | [] => none
  | evt :: rest => if evt.Event = "code" then some evt else firstCode rest

/-- `WhatsAppGenerateQR`: `qrChan` is the list of items the stream delivers, or
`none` for a nil channel.  The function waits for the first `"code"` item and
returns its code, rendered and encoded, with its timeout; without such an item
it never returns. -/
def WhatsAppGenerateQR (img : Imaging) (qrChan : Option (List QRChannelItem)) :
    Run (String × Int) :=
  match qrChan with
  | none => Run.blocks
  | some items =>
    match firstCode items with
    | none => Run.blocks
    | some evt =>
      -- qrTemp := <-qrChanCode; qrPNG, _ := qrCode.Encode(qrTemp, qrCode.Medium, 256)
      Run.returns (img.EncodeToString (img.Encode evt.Code), evt.Timeout)

/-- `WhatsAppLogin`. -/
def WhatsAppLogin (img : Imaging) (net : Net) (w : World) (jid : String) :
    Run (String × Int × GoError) × World :=
  match mapGet w.WhatsAppClient jid with
  | some c =>
    -- WhatsAppClient[jid].Disconnect()
    let w1 := w.record (Call.Disconnect jid)
    -- if WhatsAppClient[jid].Store.ID == nil
    match c.Store.ID with
    | none =>
      -- qrChanGenerate, _ := WhatsAppClient[jid].GetQRChannel(context.Background())
      let answer := net.GetQRChannel w1.calls jid
      let qrChanGenerate : Option (List QRChannelItem) :=
        match answer.2 with
        | none => some answer.1
        | some _ => none
      let w2 := w1.record (Call.GetQRChannel jid)
      -- err := WhatsAppClient[jid].Connect()
      let err := net.Connect w2.calls jid
      let w3 := w2.record (Call.Connect jid)
      match err with
      | some e => (Run.returns ("", 0, some e), w3)
      | none =>
        -- qrImage, qrTimeout := WhatsAppGenerateQR(qrChanGenerate)
        match WhatsAppGenerateQR img qrChanGenerate with
        | Run.blocks => (Run.blocks, w3)
        | Run.returns (qrImage, qrTimeout) =>
          (Run.returns ("data:image/png;base64," ++ qrImage, qrTimeout, none), w3)
    | some _ =>
      -- err := WhatsAppReconnect(jid)
      match WhatsAppReconnect net w1 jid with
      | (some e, w2) => (Run.returns ("", 0, some e), w2)
      | (none, w2) => (Run.returns ("WhatsApp Client is Reconnected", 0, none), w2)
  | none => (Run.returns ("", 0, some errNotValid), w)

/-- `WhatsAppLoginPair`. -/
def WhatsAppLoginPair (cfg : Config) (net : Net) (w : World) (jid : String) :
    (String × Int × GoError) × World :=
  match mapGet w.WhatsAppClient jid with
  | some c =>
    -- WhatsAppClient[jid].Disconnect()
    let w1 := w.record (Call.Disconnect jid)
    -- if WhatsAppClient[jid].Store.ID == nil
    match c.Store.ID with
    | none =>
      -- err := WhatsAppClient[jid].Connect()
      let err := net.Connect w1.calls jid
      let w2 := w1.record (Call.Connect jid)
      match err with
      | some e => (("", 0, some e), w2)
      | none =>
        -- code, err := WhatsAppClient[jid].PairPhone(jid, true, PairClientChrome, "Chrome (...)")
        let clientDisplayName := "Chrome (" ++ WhatsAppGetUserOS cfg ++ ")"
        let answer := net.PairPhone w2.calls jid jid true
          PairClientType.PairClientChrome clientDisplayName
        let w3 := w2.record
          (Call.PairPhone jid jid true PairClientType.PairClientChrome clientDisplayName)
        match answer.2 with
        | some e => (("", 0, some e), w3)
        | none => ((answer.1, 160, none), w3)
    | some _ =>
      -- err := WhatsAppReconnect(jid)
      match WhatsAppReconnect net w1 jid with
      | (some e, w2) => (("", 0, some e), w2)
      | (none, w2) => (("WhatsApp Client is Reconnected", 0, none), w2)
  | none => (("", 0, some errNotValid), w)

/-! ## Fixtures for the linking flows -/

/-- A handle whose device record has no identity yet. -/
def unlinkedClient : Client :=
  { addr := 0, Store := { ID := none },
    proxyAddress := none, EnableAutoReconnect := true, AutoTrustIdentity := true,
    DontSendSelfBroadcast := true }

/-- A world with one session, key `"620000000001"`, holding `unlinkedClient`. -/
def unlinkedWorld : World :=
  { emptyWorld with
    IndentXML := true,
    clients := 1,
    WhatsAppClient := [("620000000001", unlinkedClient)] }

/-- A network client for the linking flows: `connectErr` is the answer of every
connect, and the code-delivery stream holds two codes and then a timeout. -/
def linkingNet (connectErr : GoError) : Net :=
  { scriptedNet false false none none ([], none) none none with
    Connect := fun _ _ => connectErr,
    GetQRChannel := fun _ _ =>
      ([{ Event := "code", Code := "2@AbCdEf", Timeout := 60 },
        { Event := "code", Code := "2@GhIjKl", Timeout := 20 },
        { Event := "timeout", Code := "", Timeout := 0 }], none) }

/-- Stand-in encoders: the image is the code's characters, the text is fixed. -/
def plainImaging : Imaging :=
  { Encode := fun content => content.data.map Char.toNat,
    EncodeToString := fun _ => "iVBORw0KGgo=" }

/-! # Theorems -/

/-! ## Address normaliser -/

theorem splitChars_head (sep : Char) (cs : List Char) :
    ∃ rest, splitChars sep cs = cs.takeWhile (fun c => c != sep) :: rest := by
  induction cs with
  | nil => exact ⟨[], rfl⟩
  | cons c cs ih =>
    obtain ⟨rest, h⟩ := ih
    by_cases hc : c = sep
    · exact ⟨splitChars sep cs, by simp [splitChars, hc]⟩
    · exact ⟨rest, by simp [splitChars, hc, h]⟩

theorem takeWhile_of_not_contains (sep : Char) (cs : List Char)
    (h : cs.contains sep = false) : cs.takeWhile (fun c => c != sep) = cs := by
  induction cs with
  | nil => rfl
  | cons c cs ih =>
    simp at h
    have hc : (c != sep) = true := by simpa using fun e => h.1 e.symm
    rw [List.takeWhile_cons, hc]
    simp only [if_true]
    rw [ih (by simpa using h.2)]

/-- The string the normaliser works on after the `@` step is the part before
the first `@`. -/
theorem decompose_unfold (raw : String) :
    WhatsAppDecomposeJID raw =
      match raw.data.takeWhile (fun c => c != '@') with
      | [] => Outcome.panic panicIndex
      | c :: rest =>
        if c = '+' then Outcome.ret (String.mk rest) else Outcome.ret (String.mk (c :: rest)) := by
  unfold WhatsAppDecomposeJID
  by_cases h : ContainsRune raw '@' = true
  · obtain ⟨rest, hs⟩ := splitChars_head '@' raw.data
    simp only [h, if_true, Split, hs, List.map_cons]
    cases List.takeWhile (fun c => c != '@') raw.data <;> rfl
  · have h2 : raw.data.contains '@' = false := by simpa [ContainsRune] using h
    rw [takeWhile_of_not_contains '@' raw.data h2]
    simp only [h]
    cases hd : raw.data with
    | nil => simp [hd, panicIndex]
    | cons c rest =>
      have : raw = String.mk (c :: rest) := by rw [← hd]
      simp [hd, this]

theorem decompose_of_localPart_ne (raw : String) (h : localPart raw ≠ "") :
    WhatsAppDecomposeJID raw = Outcome.ret (localPart raw) := by
  rw [decompose_unfold]
  unfold localPart at h ⊢
  cases hd : raw.data.takeWhile (fun c => c != '@') with
  | nil => rw [hd] at h; exact absurd rfl h
  | cons c rest =>
    by_cases hc : c = '+'
    · subst hc; simp
    · simp only [hc, if_false]
      split
      · rename_i heq; simp at heq; exact absurd heq.1 hc
      · rfl

theorem decompose_ret (raw s : String) (h : WhatsAppDecomposeJID raw = Outcome.ret s) :
    s = localPart raw := by
  rw [decompose_unfold] at h
  unfold localPart
  cases hd : raw.data.takeWhile (fun c => c != '@') with
  | nil => rw [hd] at h; simp at h
  | cons c rest =>
    rw [hd] at h
    by_cases hc : c = '+'
    · subst hc; simp at h; simp [h]
    · simp only [hc, if_false] at h
      injection h with h
      subst h
      split
      · rename_i heq; simp at heq; exact absurd heq.1 hc
      · rfl

theorem compose_of_localPart_ne (raw : String) (h : localPart raw ≠ "") :
    WhatsAppComposeJID raw =
      if ContainsRune (localPart raw) '-' || len (localPart raw) >= 18 then
        Outcome.ret (NewJID (localPart raw) GroupServer)
      else Outcome.ret (NewJID (localPart raw) DefaultUserServer) := by
  unfold WhatsAppComposeJID
  rw [decompose_of_localPart_ne raw h]

theorem localPart_ne_of_len (raw : String) (h : 18 ≤ len (localPart raw)) :
    localPart raw ≠ "" := by
  intro he
  rw [he] at h
  exact absurd h (by decide)

theorem compose_returns (raw : String) (h : localPart raw ≠ "") :
    ∃ remote : JID, WhatsAppComposeJID raw = Outcome.ret remote ∧
      remote.User = localPart raw := by
  rw [compose_of_localPart_ne raw h]
  by_cases hc : (ContainsRune (localPart raw) '-' || decide (len (localPart raw) ≥ 18)) = true
  · exact ⟨NewJID (localPart raw) GroupServer, by simp [hc], rfl⟩
  · exact ⟨NewJID (localPart raw) DefaultUserServer, by simp [hc], rfl⟩

/-- C1: for every raw identity string whose local part (the part before the
first `@`, one leading `+` removed) is non-empty, `WhatsAppComposeJID` returns
an address with that local part whose server is the group server exactly when
the local part contains `-` or has at least 18 bytes, and the individual server
in every other case.  `"+6281234@s.whatsapp.net"` is Individual,
`"1203456789-1234@g.us"` is Group, and every id of 18 or more bytes is Group. -/
theorem C1_compose_classification :
    (∀ raw : String, localPart raw ≠ "" →
      ∃ j : JID, WhatsAppComposeJID raw = Outcome.ret j ∧ j.User = localPart raw ∧
        (j.Server = GroupServer ↔
          ('-' ∈ (localPart raw).data ∨ 18 ≤ len (localPart raw))) ∧
        (¬ ('-' ∈ (localPart raw).data ∨ 18 ≤ len (localPart raw)) →
          j.Server = DefaultUserServer)) ∧
    WhatsAppComposeJID "+6281234@s.whatsapp.net"
      = Outcome.ret (NewJID "6281234" DefaultUserServer) ∧
    WhatsAppComposeJID "1203456789-1234@g.us"
      = Outcome.ret (NewJID "1203456789-1234" GroupServer) ∧
    (∀ raw : String, 18 ≤ len (localPart raw) →
      WhatsAppComposeJID raw = Outcome.ret (NewJID (localPart raw) GroupServer)) := by
  refine ⟨?_, by decide, by decide, ?_⟩
  · intro raw h
    rw [compose_of_localPart_ne raw h]
    by_cases hg : '-' ∈ (localPart raw).data ∨ 18 ≤ len (localPart raw)
    · have hc : (ContainsRune (localPart raw) '-' || decide (len (localPart raw) ≥ 18)) = true := by
        simpa [ContainsRune] using hg
      rw [if_pos hc]
      exact ⟨_, rfl, rfl, ⟨fun _ => hg, fun _ => rfl⟩, fun hn => absurd hg hn⟩
    · have hc : ¬ (ContainsRune (localPart raw) '-' || decide (len (localPart raw) ≥ 18)) = true := by
        simpa [ContainsRune] using hg
      rw [if_neg hc]
      refine ⟨_, rfl, rfl, ⟨fun hs => ?_, fun hs => absurd hs hg⟩, fun _ => rfl⟩
      have hne : DefaultUserServer ≠ GroupServer := by decide
      exact absurd hs hne
  · intro raw h
    rw [compose_of_localPart_ne raw (localPart_ne_of_len raw h)]
    have hc : (ContainsRune (localPart raw) '-' || decide (len (localPart raw) ≥ 18)) = true := by
      simp [h]
    rw [if_pos hc]

/-- Witness of C1 at the raw string `"+6281234@s.whatsapp.net"`. -/
theorem C1_compose_classification_witness :
    localPart "+6281234@s.whatsapp.net" ≠ "" ∧
    ∃ j : JID, WhatsAppComposeJID "+6281234@s.whatsapp.net" = Outcome.ret j ∧
      j.User = localPart "+6281234@s.whatsapp.net" ∧
      (j.Server = GroupServer ↔
        ('-' ∈ (localPart "+6281234@s.whatsapp.net").data ∨
          18 ≤ len (localPart "+6281234@s.whatsapp.net"))) ∧
      (¬ ('-' ∈ (localPart "+6281234@s.whatsapp.net").data ∨
          18 ≤ len (localPart "+6281234@s.whatsapp.net")) →
        j.Server = DefaultUserServer) :=
  ⟨by decide, C1_compose_classification.1 "+6281234@s.whatsapp.net" (by decide)⟩

/-- C2: whenever `WhatsAppDecomposeJID` returns, its result is the part before
the first `@` with one leading `+` removed and nothing else changed, and it is
the local part of the address `WhatsAppComposeJID` builds; it does return
whenever the part before the first `@` is non-empty; a string without `@` and
without leading `+` comes back unchanged; `"+6281234@s.whatsapp.net"` gives
`"6281234"` and `"++1"` gives `"+1"`. -/
theorem C2_decompose_local_part :
    (∀ raw s : String, WhatsAppDecomposeJID raw = Outcome.ret s →
      s = localPart raw ∧
      ∃ j : JID, WhatsAppComposeJID raw = Outcome.ret j ∧ j.User = s) ∧
    (∀ raw : String, raw.data.takeWhile (fun c => c != '@') ≠ [] →
      WhatsAppDecomposeJID raw = Outcome.ret (localPart raw)) ∧
    (∀ raw : String, '@' ∉ raw.data → raw ≠ "" → raw.data.head? ≠ some '+' →
      WhatsAppDecomposeJID raw = Outcome.ret raw) ∧
    (∀ front back : List Char, '@' ∉ front →
      localPart (String.mk (front ++ '@' :: back)) = localPart (String.mk front) ∧
      localPart (String.mk ('+' :: front)) = String.mk front) ∧
    WhatsAppDecomposeJID "+6281234@s.whatsapp.net" = Outcome.ret "6281234" ∧
    WhatsAppDecomposeJID "++1" = Outcome.ret "+1" := by
  refine ⟨?_, ?_, ?_, ?_, by decide, by decide⟩
  · intro raw s h
    refine ⟨decompose_ret raw s h, ?_⟩
    unfold WhatsAppComposeJID
    rw [h]
    by_cases hc : (ContainsRune s '-' || decide (len s ≥ 18)) = true
    · exact ⟨NewJID s GroupServer, by simp [hc], rfl⟩
    · exact ⟨NewJID s DefaultUserServer, by simp [hc], rfl⟩
  · intro raw h
    rw [decompose_unfold]
    unfold localPart
    cases hd : raw.data.takeWhile (fun c => c != '@') with
    | nil => exact absurd hd h
    | cons c rest =>
      by_cases hc : c = '+'
      · subst hc; simp
      · simp only [hc, if_false]
        split
        · rename_i heq; simp at heq; exact absurd heq.1 hc
        · rfl
  · intro raw hat hne hplus
    rw [decompose_unfold]
    have h2 : raw.data.contains '@' = false := by simpa using hat
    rw [takeWhile_of_not_contains '@' raw.data h2]
    cases hd : raw.data with
    | nil => exact absurd (show raw = "" from by rw [show raw = String.mk raw.data from rfl, hd]) hne
    | cons c rest =>
      have hc : c ≠ '+' := by
        intro e; rw [hd, e] at hplus; exact hplus rfl
      have : raw = String.mk (c :: rest) := by rw [← hd]
      simp [hc, this]
  · intro front back hat
    have h2 : front.contains '@' = false := by simpa using hat
    have h1 : List.takeWhile (fun c => c != '@') (front ++ '@' :: back) = front := by
      rw [List.takeWhile_append_of_pos]
      · simp
      · intro c hc
        have : c ≠ '@' := fun e => hat (e ▸ hc)
        simpa using this
    have h3 : List.takeWhile (fun c => c != '@') front = front :=
      takeWhile_of_not_contains '@' front h2
    constructor
    · unfold localPart
      simp only [h1, h3]
    · unfold localPart
      have : List.takeWhile (fun c => c != '@') ('+' :: front) = '+' :: front := by
        rw [List.takeWhile_cons]
        simp [h3]
      simp only [this]

/-- Witness of C2 at the raw string `"++1"`. -/
theorem C2_decompose_local_part_witness :
    WhatsAppDecomposeJID "++1" = Outcome.ret "+1" ∧
    "+1" = localPart "++1" ∧
    ∃ j : JID, WhatsAppComposeJID "++1" = Outcome.ret j ∧ j.User = "+1" :=
  ⟨by decide, C2_decompose_local_part.1 "++1" "+1" (by decide)⟩

/-! ## Health check and registration gate -/

/-- C3: on a registered handle `WhatsAppIsClientOK` returns the error
"WhatsApp Client is not Connected" whenever the transport is not connected
(whatever the logged-in state), the error "WhatsApp Client is not Logged In"
when the transport is connected and the handle is not logged in, and no error
exactly when the handle is connected and logged in. -/
theorem C3_is_client_ok (net : Net) (w : World) (jid : String) (c : Client)
    (_hreg : mapGet w.WhatsAppClient jid = some c) :
    (net.IsConnected w.calls jid = false →
      WhatsAppIsClientOK net w jid = some "WhatsApp Client is not Connected") ∧
    (net.IsConnected w.calls jid = true → net.IsLoggedIn w.calls jid = false →
      WhatsAppIsClientOK net w jid = some "WhatsApp Client is not Logged In") ∧
    (WhatsAppIsClientOK net w jid = none ↔
      (net.IsConnected w.calls jid = true ∧ net.IsLoggedIn w.calls jid = true)) := by
  unfold WhatsAppIsClientOK
  cases hc : net.IsConnected w.calls jid <;> cases hl : net.IsLoggedIn w.calls jid <;>
    simp [errNotConnected, errNotLoggedIn]

/-- Witness of C3: the one-session world with a transport that is down. -/
theorem C3_is_client_ok_witness :
    mapGet oneSessionWorld.WhatsAppClient "620000000001" = some linkedClient ∧
    WhatsAppIsClientOK (scriptedNet false true none none ([], none) none none)
      oneSessionWorld "620000000001" = some "WhatsApp Client is not Connected" :=
  ⟨by decide,
   (C3_is_client_ok (scriptedNet false true none none ([], none) none none)
      oneSessionWorld "620000000001" linkedClient (by decide)).1 rfl⟩

theorem getJID_registered (net : Net) (w : World) (jid id : String) (c : Client)
    (hreg : mapGet w.WhatsAppClient jid = some c) :
    WhatsAppGetJID net w jid id =
      (match (net.IsOnWhatsApp w.calls jid ["+" ++ id]).2 with
        | none =>
          match (net.IsOnWhatsApp w.calls jid ["+" ++ id]).1 with
          | [] => Outcome.panic panicIndex
          | info :: _ => if info.IsIn then Outcome.ret info.JID else Outcome.ret EmptyJID
        | some _ => Outcome.ret EmptyJID,
       w.record (Call.IsOnWhatsApp jid ["+" ++ id])) := by
  unfold WhatsAppGetJID
  simp only [hreg, List.nil_append]
  cases (net.IsOnWhatsApp w.calls jid ["+" ++ id]).2 with
  | some e => rfl
  | none =>
    cases (net.IsOnWhatsApp w.calls jid ["+" ++ id]).1 with
    | nil => rfl
    | cons info rest => cases hi : info.IsIn <;> simp [hi]

theorem emptyJID_isEmpty : EmptyJID.IsEmpty = true := by decide

/-- What the gate does for an address of the group server: nothing is asked. -/
theorem checkJID_group (net : Net) (w : World) (jid id : String) (c : Client) (remote : JID)
    (hreg : mapGet w.WhatsAppClient jid = some c)
    (hcomp : WhatsAppComposeJID id = Outcome.ret remote)
    (hg : remote.Server = GroupServer) :
    WhatsAppCheckJID net w jid id = (Outcome.ret (remote, none), w) := by
  unfold WhatsAppCheckJID
  simp [hreg, hcomp, hg]

/-- What the gate does for any other address: one query, then the verdict. -/
theorem checkJID_individual (net : Net) (w : World) (jid id : String) (c : Client)
    (remote : JID) (hreg : mapGet w.WhatsAppClient jid = some c)
    (hcomp : WhatsAppComposeJID id = Outcome.ret remote)
    (hg : remote.Server ≠ GroupServer) :
    WhatsAppCheckJID net w jid id =
      (match (net.IsOnWhatsApp w.calls jid (gateQuery remote)).2 with
        | none =>
          match (net.IsOnWhatsApp w.calls jid (gateQuery remote)).1 with
          | [] => Outcome.panic panicIndex
          | info :: _ =>
            if info.IsIn && !info.JID.IsEmpty then Outcome.ret (remote, none)
            else Outcome.ret (EmptyJID, some errNotRegistered)
        | some _ => Outcome.ret (EmptyJID, some errNotRegistered),
       w.record (Call.IsOnWhatsApp jid (gateQuery remote))) := by
  unfold WhatsAppCheckJID
  simp only [hreg, hcomp, hg, ne_eq, not_false_eq_true, if_true]
  rw [getJID_registered net w jid remote.String c hreg]
  unfold gateQuery
  cases (net.IsOnWhatsApp w.calls jid ["+" ++ remote.String]).2 with
  | some e => simp [emptyJID_isEmpty]
  | none =>
    cases (net.IsOnWhatsApp w.calls jid ["+" ++ remote.String]).1 with
    | nil => rfl
    | cons info rest =>
      cases hi : info.IsIn <;> cases he : info.JID.IsEmpty <;> simp [hi, he, emptyJID_isEmpty]

/-- The verdicts of the gate where the answer has a first entry or the query
fails: for a registered session and a raw address with a non-empty local part,
`WhatsAppCheckJID` returns the normalised address with no error and leaves the
call log untouched when the address is Group; when it is Individual it makes
exactly one is-on-network query and then returns the normalised address with no
error if the first entry is a positive, non-empty match, and the empty address
with the error "WhatsApp Personal ID is Not Registered" if the query fails or
the first entry is not such a match.  The answer without error and without
entry is not covered here. -/
theorem checkJID_verdicts (net : Net) (w : World) (jid raw : String) (c : Client)
    (hreg : mapGet w.WhatsAppClient jid = some c) (hraw : localPart raw ≠ "") :
    ∃ remote : JID, WhatsAppComposeJID raw = Outcome.ret remote ∧
      remote.User = localPart raw ∧
      (remote.Server = GroupServer →
        WhatsAppCheckJID net w jid raw = (Outcome.ret (remote, none), w)) ∧
      (remote.Server ≠ GroupServer →
        (WhatsAppCheckJID net w jid raw).2 =
            w.record (Call.IsOnWhatsApp jid (gateQuery remote)) ∧
        (positiveMatch (net.IsOnWhatsApp w.calls jid (gateQuery remote)) = true →
          (WhatsAppCheckJID net w jid raw).1 = Outcome.ret (remote, none)) ∧
        ((queryErrors (net.IsOnWhatsApp w.calls jid (gateQuery remote)) = true ∨
            negativeAnswer (net.IsOnWhatsApp w.calls jid (gateQuery remote)) = true) →
          (WhatsAppCheckJID net w jid raw).1 =
            Outcome.ret (EmptyJID, some "WhatsApp Personal ID is Not Registered"))) := by
  obtain ⟨remote, hcomp, huser⟩ := compose_returns raw hraw
  refine ⟨remote, hcomp, huser, ?_, ?_⟩
  · intro hg
    exact checkJID_group net w jid raw c remote hreg hcomp hg
  · intro hg
    rw [checkJID_individual net w jid raw c remote hreg hcomp hg]
    refine ⟨rfl, ?_, ?_⟩
    · intro hp
      unfold positiveMatch at hp
      cases h2 : (net.IsOnWhatsApp w.calls jid (gateQuery remote)).2 with
      | some e => rw [h2] at hp; simp at hp
      | none =>
        cases h1 : (net.IsOnWhatsApp w.calls jid (gateQuery remote)).1 with
        | nil => rw [h2, h1] at hp; simp at hp
        | cons info rest =>
          rw [h2, h1] at hp
          simp only at hp
          simp [hp]
    · intro hn
      unfold queryErrors negativeAnswer at hn
      cases h2 : (net.IsOnWhatsApp w.calls jid (gateQuery remote)).2 with
      | some e => rfl
      | none =>
        cases h1 : (net.IsOnWhatsApp w.calls jid (gateQuery remote)).1 with
        | nil => rw [h2, h1] at hn; simp at hn
        | cons info rest =>
          rw [h2, h1] at hn
          simp only [Option.isSome_none, Bool.false_eq_true, false_or] at hn
          have hf : (info.IsIn && !info.JID.IsEmpty) = false := by
            cases hi : info.IsIn <;> cases he : info.JID.IsEmpty <;> simp [hi, he] at hn ⊢
          simp only [hf]
          rfl

/-- The gate at a number that is found on the network. -/
theorem checkJID_verdicts_known_number :
    mapGet oneSessionWorld.WhatsAppClient "620000000001" = some linkedClient ∧
    localPart "620000000002" ≠ "" ∧
    WhatsAppCheckJID (scriptedNet true true none none registeredAnswer none none)
        oneSessionWorld "620000000001" "620000000002" =
      (Outcome.ret (NewJID "620000000002" DefaultUserServer, none),
       oneSessionWorld.record
        (Call.IsOnWhatsApp "620000000001" ["+620000000002@s.whatsapp.net"])) ∧
    ∃ remote : JID, WhatsAppComposeJID "620000000002" = Outcome.ret remote ∧
      remote.User = localPart "620000000002" :=
  ⟨by decide, by decide, by decide,
   (checkJID_verdicts (scriptedNet true true none none registeredAnswer none none)
      oneSessionWorld "620000000001" "620000000002" linkedClient
      (by decide) (by decide)).imp (fun _ h => ⟨h.1, h.2.1⟩)⟩

/-- C4: the code at the failing input.  For a registered session and the raw
address `"+6281234@s.whatsapp.net"`, which is Individual with a non-empty local
part, when the is-on-network query answers without error and without any entry
(no match), `WhatsAppCheckJID` makes the query and then panics on the access to
the first entry; it does not return the empty address with the error
"WhatsApp Personal ID is Not Registered". -/
theorem C4_check_jid_no_entry_panics :
    mapGet oneSessionWorld.WhatsAppClient "620000000001" = some linkedClient ∧
    localPart "+6281234@s.whatsapp.net" ≠ "" ∧
    WhatsAppComposeJID "+6281234@s.whatsapp.net" =
      Outcome.ret (NewJID "6281234" DefaultUserServer) ∧
    DefaultUserServer ≠ GroupServer ∧
    queryErrors emptyAnswer = false ∧
    positiveMatch emptyAnswer = false ∧
    WhatsAppCheckJID (scriptedNet true true none none emptyAnswer none none)
        oneSessionWorld "620000000001" "+6281234@s.whatsapp.net" =
      (Outcome.panic "runtime error: index out of range [0] with length 0",
       oneSessionWorld.record
        (Call.IsOnWhatsApp "620000000001" ["+6281234@s.whatsapp.net"])) ∧
    (WhatsAppCheckJID (scriptedNet true true none none emptyAnswer none none)
        oneSessionWorld "620000000001" "+6281234@s.whatsapp.net").1 ≠
      Outcome.ret (EmptyJID, some "WhatsApp Personal ID is Not Registered") := by
  refine ⟨by decide, by decide, by decide, by decide, by decide, by decide,
    by decide, by decide⟩

/-! ## Message dispatcher -/

/-- The gate leaves the world as it is or adds one is-on-network query. -/
theorem checkJID_world (net : Net) (w : World) (jid id : String) :
    (WhatsAppCheckJID net w jid id).2 = w ∨
    ∃ q, (WhatsAppCheckJID net w jid id).2 = w.record (Call.IsOnWhatsApp jid q) := by
  unfold WhatsAppCheckJID
  cases hreg : mapGet w.WhatsAppClient jid with
  | none => exact Or.inl rfl
  | some c =>
    cases hcomp : WhatsAppComposeJID id with
    | panic msg => exact Or.inl rfl
    | ret remote =>
      by_cases hg : remote.Server = GroupServer
      · left; simp [hg]
      · right
        refine ⟨["+" ++ remote.String], ?_⟩
        simp only [hg, ne_eq, not_false_eq_true, if_true]
        rw [getJID_registered net w jid remote.String c hreg]
        cases (net.IsOnWhatsApp w.calls jid ["+" ++ remote.String]).2 with
        | some e => simp [emptyJID_isEmpty]
        | none =>
          cases (net.IsOnWhatsApp w.calls jid ["+" ++ remote.String]).1 with
          | nil => rfl
          | cons info rest =>
            cases hi : info.IsIn <;> cases he : info.JID.IsEmpty <;>
              simp [hi, he, emptyJID_isEmpty]

/-- A send whose target passed the gate: the six calls it adds, and its result. -/
theorem sendWith_after_gate (net : Net) (w w1 : World) (jid rjid : String) (c : Client)
    (remote : JID) (content : Message)
    (hreg : mapGet w.WhatsAppClient jid = some c)
    (hok : WhatsAppIsClientOK net w jid = none)
    (hgate : WhatsAppCheckJID net w jid rjid = (Outcome.ret (remote, none), w1)) :
    ∃ id : String,
      (sendWith net w jid rjid content).2 =
        { w1 with calls := w1.calls ++
            [ Call.SendPresence jid Presence.PresenceAvailable,
              Call.SendChatPresence jid remote ChatPresence.ChatPresenceComposing
                ChatPresenceMedia.ChatPresenceMediaText,
              Call.GenerateMessageID jid,
              Call.SendMessage jid remote content id,
              Call.SendChatPresence jid remote ChatPresence.ChatPresencePaused
                ChatPresenceMedia.ChatPresenceMediaText,
              Call.SendPresence jid Presence.PresenceUnavailable ] } ∧
      ((sendWith net w jid rjid content).1 = Outcome.ret (id, none) ∨
        ∃ e, (sendWith net w jid rjid content).1 = Outcome.ret ("", some e)) := by
  unfold sendWith
  simp only [hreg, hok, hgate]
  refine ⟨net.GenerateMessageID (w1.calls ++
      [ Call.SendPresence jid Presence.PresenceAvailable,
        Call.SendChatPresence jid remote ChatPresence.ChatPresenceComposing
          ChatPresenceMedia.ChatPresenceMediaText ]) jid, ?_, ?_⟩
  · simp [WhatsAppPresence, WhatsAppComposeStatus, World.record]
    split <;> simp
  · simp [WhatsAppPresence, WhatsAppComposeStatus, World.record]
    split <;> simp

/-- The presence and submit calls of a send whose target passed the gate. -/
theorem sendWith_sequence (net : Net) (w : World) (jid rjid : String) (c : Client)
    (remote : JID) (content : Message)
    (hreg : mapGet w.WhatsAppClient jid = some c)
    (hok : WhatsAppIsClientOK net w jid = none)
    (hgate : (WhatsAppCheckJID net w jid rjid).1 = Outcome.ret (remote, none)) :
    ∃ id : String,
      (((sendWith net w jid rjid content).2.calls.drop w.calls.length).filter
          isPresenceOrSubmit = sendSequence jid remote content id) ∧
      ((sendWith net w jid rjid content).1 = Outcome.ret (id, none) ∨
        ∃ e, (sendWith net w jid rjid content).1 = Outcome.ret ("", some e)) := by
  have hg : WhatsAppCheckJID net w jid rjid =
      (Outcome.ret (remote, none), (WhatsAppCheckJID net w jid rjid).2) :=
    Prod.ext hgate rfl
  obtain ⟨id, hw, hr⟩ := sendWith_after_gate net w _ jid rjid c remote content hreg hok hg
  refine ⟨id, ?_, hr⟩
  rw [hw]
  rcases checkJID_world net w jid rjid with h | ⟨q, h⟩
  · rw [h]
    simp [isPresenceOrSubmit, sendSequence]
  · rw [h]
    simp [World.record, isPresenceOrSubmit, sendSequence]

/-- C5: for each of the three sends (text, location, contact) on a healthy
session whose target passes the registration gate, and whatever the submit
answers, the presence and submit calls made during the send are exactly, in
this order: availability on, composing on for the resolved target, one submit to
that target, composing off for the same target, availability off; the send then
returns the message id, or the empty id with the error of the submit. -/
theorem C5_send_call_order (net : Net) (w : World) (jid rjid : String) (c : Client)
    (remote : JID) (message contactName contactNumber : String)
    (latitude longitude : Float64)
    (hreg : mapGet w.WhatsAppClient jid = some c)
    (hok : WhatsAppIsClientOK net w jid = none)
    (hgate : (WhatsAppCheckJID net w jid rjid).1 = Outcome.ret (remote, none)) :
    (∃ id : String,
      (((WhatsAppSendText net w jid rjid message).2.calls.drop w.calls.length).filter
          isPresenceOrSubmit = sendSequence jid remote (Message.Conversation message) id) ∧
      ((WhatsAppSendText net w jid rjid message).1 = Outcome.ret (id, none) ∨
        ∃ e, (WhatsAppSendText net w jid rjid message).1 = Outcome.ret ("", some e))) ∧
    (∃ id : String,
      (((WhatsAppSendLocation net w jid rjid latitude longitude).2.calls.drop
          w.calls.length).filter isPresenceOrSubmit =
        sendSequence jid remote (Message.LocationMessage latitude longitude) id) ∧
      ((WhatsAppSendLocation net w jid rjid latitude longitude).1 = Outcome.ret (id, none) ∨
        ∃ e, (WhatsAppSendLocation net w jid rjid latitude longitude).1 =
          Outcome.ret ("", some e))) ∧
    (∃ id : String,
      (((WhatsAppSendContact net w jid rjid contactName contactNumber).2.calls.drop
          w.calls.length).filter isPresenceOrSubmit =
        sendSequence jid remote
          (Message.ContactMessage contactName (msgVCard contactName contactNumber)) id) ∧
      ((WhatsAppSendContact net w jid rjid contactName contactNumber).1 =
          Outcome.ret (id, none) ∨
        ∃ e, (WhatsAppSendContact net w jid rjid contactName contactNumber).1 =
          Outcome.ret ("", some e))) :=
  ⟨sendWith_sequence net w jid rjid c remote _ hreg hok hgate,
   sendWith_sequence net w jid rjid c remote _ hreg hok hgate,
   sendWith_sequence net w jid rjid c remote _ hreg hok hgate⟩

/-- Witness of C5: a text send whose submit fails still runs the whole sequence. -/
theorem C5_send_call_order_witness :
    (WhatsAppSendText
        (scriptedNet true true none none registeredAnswer (some "server timeout") none)
        oneSessionWorld "620000000001" "620000000002" "hello").1 =
      Outcome.ret ("", some "server timeout") ∧
    (WhatsAppSendText
        (scriptedNet true true none none registeredAnswer (some "server timeout") none)
        oneSessionWorld "620000000001" "620000000002" "hello").2.calls =
      [ Call.IsOnWhatsApp "620000000001" ["+620000000002@s.whatsapp.net"],
        Call.SendPresence "620000000001" Presence.PresenceAvailable,
        Call.SendChatPresence "620000000001" (NewJID "620000000002" DefaultUserServer)
          ChatPresence.ChatPresenceComposing ChatPresenceMedia.ChatPresenceMediaText,
        Call.GenerateMessageID "620000000001",
        Call.SendMessage "620000000001" (NewJID "620000000002" DefaultUserServer)
          (Message.Conversation "hello") "3EB0A1B2C3",
        Call.SendChatPresence "620000000001" (NewJID "620000000002" DefaultUserServer)
          ChatPresence.ChatPresencePaused ChatPresenceMedia.ChatPresenceMediaText,
        Call.SendPresence "620000000001" Presence.PresenceUnavailable ] ∧
    ∃ id : String,
      (((WhatsAppSendText
          (scriptedNet true true none none registeredAnswer (some "server timeout") none)
          oneSessionWorld "620000000001" "620000000002" "hello").2.calls.drop
            oneSessionWorld.calls.length).filter isPresenceOrSubmit =
        sendSequence "620000000001" (NewJID "620000000002" DefaultUserServer)
          (Message.Conversation "hello") id) ∧
      ((WhatsAppSendText
          (scriptedNet true true none none registeredAnswer (some "server timeout") none)
          oneSessionWorld "620000000001" "620000000002" "hello").1 = Outcome.ret (id, none) ∨
        ∃ e, (WhatsAppSendText
          (scriptedNet true true none none registeredAnswer (some "server timeout") none)
          oneSessionWorld "620000000001" "620000000002" "hello").1 =
            Outcome.ret ("", some e)) :=
  ⟨by decide, by decide,
   (C5_send_call_order
      (scriptedNet true true none none registeredAnswer (some "server timeout") none)
      oneSessionWorld "620000000001" "620000000002" linkedClient
      (NewJID "620000000002" DefaultUserServer) "hello" "Ann" "620000000003" ⟨0⟩ ⟨0⟩
      (by decide) (by decide) (by decide)).1⟩

/-- A send to an Individual target whose answer is not a positive match makes the
query and nothing else; it returns the Not Registered error unless the answer
is empty without error, in which case the access to the first entry panics. -/
theorem sendWith_gate_rejects (net : Net) (w : World) (jid rjid : String) (c : Client)
    (remote : JID) (content : Message)
    (hreg : mapGet w.WhatsAppClient jid = some c)
    (hok : WhatsAppIsClientOK net w jid = none)
    (hcomp : WhatsAppComposeJID rjid = Outcome.ret remote)
    (hg : remote.Server ≠ GroupServer)
    (hneg : positiveMatch (net.IsOnWhatsApp w.calls jid (gateQuery remote)) = false) :
    (sendWith net w jid rjid content).2 =
        w.record (Call.IsOnWhatsApp jid (gateQuery remote)) ∧
    (((net.IsOnWhatsApp w.calls jid (gateQuery remote)).2 = none ∧
        (net.IsOnWhatsApp w.calls jid (gateQuery remote)).1 = []) →
      (sendWith net w jid rjid content).1 = Outcome.panic panicIndex) ∧
    (¬ ((net.IsOnWhatsApp w.calls jid (gateQuery remote)).2 = none ∧
        (net.IsOnWhatsApp w.calls jid (gateQuery remote)).1 = []) →
      (sendWith net w jid rjid content).1 = Outcome.ret ("", some errNotRegistered)) := by
  unfold sendWith
  simp only [hreg, hok]
  rw [checkJID_individual net w jid rjid c remote hreg hcomp hg]
  unfold positiveMatch at hneg
  cases h2 : (net.IsOnWhatsApp w.calls jid (gateQuery remote)).2 with
  | some e => simp
  | none =>
    cases h1 : (net.IsOnWhatsApp w.calls jid (gateQuery remote)).1 with
    | nil => simp
    | cons info rest =>
      rw [h2, h1] at hneg
      simp only at hneg
      simp [hneg]

/-- C6: the code at the failing input.  On a healthy session, for the Individual
target `"620000000002"`, when the is-on-network query answers without error and
without any entry (not a positive match), each of the three sends makes the
query and then panics on the access to the first entry instead of returning the
Not Registered error; no submit call is made. -/
theorem C6_send_empty_answer_panics :
    WhatsAppIsClientOK (scriptedNet true true none none emptyAnswer none none)
      oneSessionWorld "620000000001" = none ∧
    WhatsAppComposeJID "620000000002" =
      Outcome.ret (NewJID "620000000002" DefaultUserServer) ∧
    positiveMatch emptyAnswer = false ∧
    WhatsAppSendText (scriptedNet true true none none emptyAnswer none none)
        oneSessionWorld "620000000001" "620000000002" "hello" =
      (Outcome.panic "runtime error: index out of range [0] with length 0",
       oneSessionWorld.record
        (Call.IsOnWhatsApp "620000000001" ["+620000000002@s.whatsapp.net"])) ∧
    WhatsAppSendLocation (scriptedNet true true none none emptyAnswer none none)
        oneSessionWorld "620000000001" "620000000002" ⟨0⟩ ⟨0⟩ =
      (Outcome.panic "runtime error: index out of range [0] with length 0",
       oneSessionWorld.record
        (Call.IsOnWhatsApp "620000000001" ["+620000000002@s.whatsapp.net"])) ∧
    WhatsAppSendContact (scriptedNet true true none none emptyAnswer none none)
        oneSessionWorld "620000000001" "620000000002" "Ann" "620000000003" =
      (Outcome.panic "runtime error: index out of range [0] with length 0",
       oneSessionWorld.record
        (Call.IsOnWhatsApp "620000000001" ["+620000000002@s.whatsapp.net"])) := by
  refine ⟨by decide, by decide, by decide, by decide, by decide, by decide⟩

/-! ## Health gating -/

/-- C7: on a registered key whose handle is not connected, each of the seven
authenticated operations (check-registered, send text, send location, send
contact, list groups, join group, leave group) returns the error
"WhatsApp Client is not Connected" and leaves the whole world as it was: no
call on the network client or the store is added to the log and the registry is
unchanged.  The same holds with "WhatsApp Client is not Logged In" when the
handle is connected and not logged in. -/
theorem C7_health_gate (net : Net) (w : World) (jid : String) (c : Client)
    (id rjid message contactName contactNumber link gjid : String)
    (latitude longitude : Float64)
    (hreg : mapGet w.WhatsAppClient jid = some c) :
    (net.IsConnected w.calls jid = false →
      WhatsAppCheckRegistered net w jid id =
        (Outcome.ret (some "WhatsApp Client is not Connected"), w) ∧
      WhatsAppSendText net w jid rjid message =
        (Outcome.ret ("", some "WhatsApp Client is not Connected"), w) ∧
      WhatsAppSendLocation net w jid rjid latitude longitude =
        (Outcome.ret ("", some "WhatsApp Client is not Connected"), w) ∧
      WhatsAppSendContact net w jid rjid contactName contactNumber =
        (Outcome.ret ("", some "WhatsApp Client is not Connected"), w) ∧
      WhatsAppGroupGet net w jid = (([], some "WhatsApp Client is not Connected"), w) ∧
      WhatsAppGroupJoin net w jid link =
        (("", some "WhatsApp Client is not Connected"), w) ∧
      WhatsAppGroupLeave net w jid gjid =
        (Outcome.ret (some "WhatsApp Client is not Connected"), w)) ∧
    (net.IsConnected w.calls jid = true → net.IsLoggedIn w.calls jid = false →
      WhatsAppCheckRegistered net w jid id =
        (Outcome.ret (some "WhatsApp Client is not Logged In"), w) ∧
      WhatsAppSendText net w jid rjid message =
        (Outcome.ret ("", some "WhatsApp Client is not Logged In"), w) ∧
      WhatsAppSendLocation net w jid rjid latitude longitude =
        (Outcome.ret ("", some "WhatsApp Client is not Logged In"), w) ∧
      WhatsAppSendContact net w jid rjid contactName contactNumber =
        (Outcome.ret ("", some "WhatsApp Client is not Logged In"), w) ∧
      WhatsAppGroupGet net w jid = (([], some "WhatsApp Client is not Logged In"), w) ∧
      WhatsAppGroupJoin net w jid link =
        (("", some "WhatsApp Client is not Logged In"), w) ∧
      WhatsAppGroupLeave net w jid gjid =
        (Outcome.ret (some "WhatsApp Client is not Logged In"), w)) := by
  constructor
  · intro hc
    have hok : WhatsAppIsClientOK net w jid = some "WhatsApp Client is not Connected" := by
      simp [WhatsAppIsClientOK, hc, errNotConnected]
    simp [WhatsAppCheckRegistered, WhatsAppSendText, WhatsAppSendLocation,
      WhatsAppSendContact, sendWith, WhatsAppGroupGet, WhatsAppGroupJoin,
      WhatsAppGroupLeave, hreg, hok]
  · intro hc hl
    have hok : WhatsAppIsClientOK net w jid = some "WhatsApp Client is not Logged In" := by
      simp [WhatsAppIsClientOK, hc, hl, errNotLoggedIn]
    simp [WhatsAppCheckRegistered, WhatsAppSendText, WhatsAppSendLocation,
      WhatsAppSendContact, sendWith, WhatsAppGroupGet, WhatsAppGroupJoin,
      WhatsAppGroupLeave, hreg, hok]

/-- Witness of C7: a text send on the one-session world with the transport down. -/
theorem C7_health_gate_witness :
    mapGet oneSessionWorld.WhatsAppClient "620000000001" = some linkedClient ∧
    WhatsAppSendText (scriptedNet false true none none registeredAnswer none none)
        oneSessionWorld "620000000001" "620000000002" "hello" =
      (Outcome.ret ("", some "WhatsApp Client is not Connected"), oneSessionWorld) :=
  ⟨by decide,
   ((C7_health_gate (scriptedNet false true none none registeredAnswer none none)
      oneSessionWorld "620000000001" linkedClient "620000000002" "620000000002" "hello"
      "Ann" "620000000003" "https://chat.whatsapp.com/AbCd" "120363040000000000@g.us"
      ⟨0⟩ ⟨0⟩ (by decide)).1 rfl).2.1⟩

/-! ## Registry -/

theorem mapGet_mapDelete_self (m : List (String × Client)) (jid : String) :
    mapGet (mapDelete m jid) jid = none := by
  induction m with
  | nil => rfl
  | cons e rest ih =>
    obtain ⟨k, c⟩ := e
    by_cases hk : k = jid
    · simpa [mapDelete, hk] using ih
    · have : mapDelete ((k, c) :: rest) jid = (k, c) :: mapDelete rest jid := by
        simp [mapDelete, hk]
      rw [this]
      simp [mapGet, hk, ih]

theorem mapGet_mapDelete_other (m : List (String × Client)) (jid k : String)
    (h : k ≠ jid) : mapGet (mapDelete m jid) k = mapGet m k := by
  induction m with
  | nil => rfl
  | cons e rest ih =>
    obtain ⟨k1, c⟩ := e
    by_cases hk : k1 = jid
    · have hne : k1 ≠ k := fun e => h (e ▸ hk)
      have : mapDelete ((k1, c) :: rest) jid = mapDelete rest jid := by
        simp [mapDelete, hk]
      rw [this, ih]
      simp [mapGet, hne]
    · have : mapDelete ((k1, c) :: rest) jid = (k1, c) :: mapDelete rest jid := by
        simp [mapDelete, hk]
      rw [this]
      simp [mapGet, ih]

theorem mapGet_mapSet_self (m : List (String × Client)) (jid : String) (c : Client) :
    mapGet (mapSet m jid c) jid = some c := by
  simp [mapSet, mapGet]

theorem mapGet_mapSet_other (m : List (String × Client)) (jid k : String) (c : Client)
    (h : k ≠ jid) : mapGet (mapSet m jid c) k = mapGet m k := by
  have hne : jid ≠ k := fun e => h e.symm
  simp [mapSet, mapGet, hne, mapGet_mapDelete_other m jid k h]

theorem mapGet_mapModify_self (m : List (String × Client)) (jid : String)
    (f : Client → Client) : mapGet (mapModify m jid f) jid = (mapGet m jid).map f := by
  induction m with
  | nil => rfl
  | cons e rest ih =>
    obtain ⟨k, c⟩ := e
    by_cases hk : k = jid
    · have : mapModify ((k, c) :: rest) jid f = (k, f c) :: mapModify rest jid f := by
        simp [mapModify, hk]
      rw [this]
      simp [mapGet, hk]
    · have : mapModify ((k, c) :: rest) jid f = (k, c) :: mapModify rest jid f := by
        simp [mapModify, hk]
      rw [this]
      simp [mapGet, hk, ih]

theorem mapGet_mapModify_other (m : List (String × Client)) (jid k : String)
    (f : Client → Client) (h : k ≠ jid) : mapGet (mapModify m jid f) k = mapGet m k := by
  induction m with
  | nil => rfl
  | cons e rest ih =>
    obtain ⟨k1, c⟩ := e
    by_cases hk : k1 = jid
    · have hne : k1 ≠ k := fun e => h (e ▸ hk)
      have : mapModify ((k1, c) :: rest) jid f = (k1, f c) :: mapModify rest jid f := by
        simp [mapModify, hk]
      rw [this]
      simp [mapGet, hne, ih]
    · have : mapModify ((k1, c) :: rest) jid f = (k1, c) :: mapModify rest jid f := by
        simp [mapModify, hk]
      rw [this]
      simp [mapGet, ih]

theorem keys_mapModify (m : List (String × Client)) (jid : String) (f : Client → Client) :
    (mapModify m jid f).map Prod.fst = m.map Prod.fst := by
  induction m with
  | nil => rfl
  | cons e rest ih =>
    obtain ⟨k, c⟩ := e
    by_cases hk : k = jid
    · have : mapModify ((k, c) :: rest) jid f = (k, f c) :: mapModify rest jid f := by
        simp [mapModify, hk]
      rw [this]
      simp [ih]
    · have : mapModify ((k, c) :: rest) jid f = (k, c) :: mapModify rest jid f := by
        simp [mapModify, hk]
      rw [this]
      simp [ih]

theorem nodup_keys_mapDelete (m : List (String × Client)) (jid : String)
    (h : (m.map Prod.fst).Nodup) : ((mapDelete m jid).map Prod.fst).Nodup := by
  unfold mapDelete
  exact List.Nodup.sublist (List.Sublist.map Prod.fst (List.filter_sublist m)) h

theorem not_mem_keys_mapDelete (m : List (String × Client)) (jid : String) :
    jid ∉ (mapDelete m jid).map Prod.fst := by
  unfold mapDelete
  intro hmem
  rw [List.mem_map] at hmem
  obtain ⟨e, he, hk⟩ := hmem
  rw [List.mem_filter] at he
  have : e.1 ≠ jid := by simpa using he.2
  exact this hk

theorem nodup_keys_mapSet (m : List (String × Client)) (jid : String) (c : Client)
    (h : (m.map Prod.fst).Nodup) : ((mapSet m jid c).map Prod.fst).Nodup := by
  unfold mapSet
  rw [List.map_cons, List.nodup_cons]
  exact ⟨not_mem_keys_mapDelete m jid, nodup_keys_mapDelete m jid h⟩

/-- What logout does when the handle is registered, by the two answers. -/
theorem logout_registered (net : Net) (w : World) (jid : String) (c : Client)
    (hreg : mapGet w.WhatsAppClient jid = some c) :
    WhatsAppLogout net w jid =
      match net.Logout (w.calls ++ [Call.SendPresence jid Presence.PresenceUnavailable]) jid with
      | none =>
        (none,
          { w with
            WhatsAppClient := mapDelete w.WhatsAppClient jid,
            calls := w.calls ++
              [Call.SendPresence jid Presence.PresenceUnavailable, Call.Logout jid] })
      | some _ =>
        match net.StoreDelete (w.calls ++
            [Call.SendPresence jid Presence.PresenceUnavailable, Call.Logout jid,
             Call.Disconnect jid]) jid with
        | none =>
          (none,
            { w with
              WhatsAppClient := mapDelete w.WhatsAppClient jid,
              calls := w.calls ++
                [Call.SendPresence jid Presence.PresenceUnavailable, Call.Logout jid,
                 Call.Disconnect jid, Call.StoreDelete jid] })
        | some e2 =>
          (some e2,
            { w with
              calls := w.calls ++
                [Call.SendPresence jid Presence.PresenceUnavailable, Call.Logout jid,
                 Call.Disconnect jid, Call.StoreDelete jid] }) := by
  unfold WhatsAppLogout
  simp only [hreg, WhatsAppPresence, World.record, Bool.false_eq_true, if_false,
    List.append_assoc, List.singleton_append, List.cons_append, List.nil_append]
  cases net.Logout (w.calls ++ [Call.SendPresence jid Presence.PresenceUnavailable]) jid with
  | none => rfl
  | some e1 =>
    simp only
    cases net.StoreDelete (w.calls ++
        [Call.SendPresence jid Presence.PresenceUnavailable, Call.Logout jid,
         Call.Disconnect jid]) jid with
    | none => rfl
    | some e2 => rfl

/-- C8: `WhatsAppLogout` on a registered key.  If the network-side logout fails
and the fallback delete of the device record succeeds, no error is returned and
the key is removed from the registry; if the logout fails and the delete fails
too, the error of the delete is returned and the registry is unchanged, so the
key is still registered with the same handle; if the logout succeeds, no error
is returned, the key is removed, and no delete (and no disconnect) is
attempted.  Other keys keep their handles in every case. -/
theorem C8_logout_fallback (net : Net) (w : World) (jid : String) (c : Client)
    (hreg : mapGet w.WhatsAppClient jid = some c) :
    (∀ e1 : String,
      net.Logout (w.calls ++ [Call.SendPresence jid Presence.PresenceUnavailable]) jid
        = some e1 →
      net.StoreDelete (w.calls ++ [Call.SendPresence jid Presence.PresenceUnavailable,
        Call.Logout jid, Call.Disconnect jid]) jid = none →
      (WhatsAppLogout net w jid).1 = none ∧
      mapGet (WhatsAppLogout net w jid).2.WhatsAppClient jid = none ∧
      (∀ k : String, k ≠ jid →
        mapGet (WhatsAppLogout net w jid).2.WhatsAppClient k = mapGet w.WhatsAppClient k) ∧
      (WhatsAppLogout net w jid).2.calls = w.calls ++
        [Call.SendPresence jid Presence.PresenceUnavailable, Call.Logout jid,
         Call.Disconnect jid, Call.StoreDelete jid]) ∧
    (∀ e1 e2 : String,
      net.Logout (w.calls ++ [Call.SendPresence jid Presence.PresenceUnavailable]) jid
        = some e1 →
      net.StoreDelete (w.calls ++ [Call.SendPresence jid Presence.PresenceUnavailable,
        Call.Logout jid, Call.Disconnect jid]) jid = some e2 →
      (WhatsAppLogout net w jid).1 = some e2 ∧
      (WhatsAppLogout net w jid).2.WhatsAppClient = w.WhatsAppClient ∧
      mapGet (WhatsAppLogout net w jid).2.WhatsAppClient jid = some c ∧
      (WhatsAppLogout net w jid).2.calls = w.calls ++
        [Call.SendPresence jid Presence.PresenceUnavailable, Call.Logout jid,
         Call.Disconnect jid, Call.StoreDelete jid]) ∧
    (net.Logout (w.calls ++ [Call.SendPresence jid Presence.PresenceUnavailable]) jid
        = none →
      (WhatsAppLogout net w jid).1 = none ∧
      mapGet (WhatsAppLogout net w jid).2.WhatsAppClient jid = none ∧
      (∀ k : String, k ≠ jid →
        mapGet (WhatsAppLogout net w jid).2.WhatsAppClient k = mapGet w.WhatsAppClient k) ∧
      (WhatsAppLogout net w jid).2.calls = w.calls ++
        [Call.SendPresence jid Presence.PresenceUnavailable, Call.Logout jid]) := by
  rw [logout_registered net w jid c hreg]
  refine ⟨?_, ?_, ?_⟩
  · intro e1 h1 h2
    rw [h1]
    simp only []
    rw [h2]
    exact ⟨rfl, mapGet_mapDelete_self _ _,
      fun k hk => mapGet_mapDelete_other _ _ k hk, rfl⟩
  · intro e1 e2 h1 h2
    rw [h1]
    simp only []
    rw [h2]
    exact ⟨rfl, rfl, hreg, rfl⟩
  · intro h1
    rw [h1]
    exact ⟨rfl, mapGet_mapDelete_self _ _,
      fun k hk => mapGet_mapDelete_other _ _ k hk, rfl⟩

/-- Witness of C8: logout and fallback delete both fail on the one-session world. -/
theorem C8_logout_fallback_witness :
    mapGet oneSessionWorld.WhatsAppClient "620000000001" = some linkedClient ∧
    (WhatsAppLogout
        (scriptedNet true true (some "logout refused") (some "store locked")
          registeredAnswer none none)
        oneSessionWorld "620000000001").1 = some "store locked" ∧
    (WhatsAppLogout
        (scriptedNet true true (some "logout refused") (some "store locked")
          registeredAnswer none none)
        oneSessionWorld "620000000001").2.WhatsAppClient = oneSessionWorld.WhatsAppClient ∧
    mapGet (WhatsAppLogout
        (scriptedNet true true (some "logout refused") (some "store locked")
          registeredAnswer none none)
        oneSessionWorld "620000000001").2.WhatsAppClient "620000000001"
      = some linkedClient ∧
    (WhatsAppLogout
        (scriptedNet true true (some "logout refused") (some "store locked")
          registeredAnswer none none)
        oneSessionWorld "620000000001").2.calls = oneSessionWorld.calls ++
      [Call.SendPresence "620000000001" Presence.PresenceUnavailable,
       Call.Logout "620000000001", Call.Disconnect "620000000001",
       Call.StoreDelete "620000000001"] :=
  ⟨by decide,
   (C8_logout_fallback
      (scriptedNet true true (some "logout refused") (some "store locked")
        registeredAnswer none none)
      oneSessionWorld "620000000001" linkedClient (by decide)).2.1
      "logout refused" "store locked" rfl rfl⟩

/-- A call for a key that has a handle only sets the library's XML flag. -/
theorem initClient_registered (cfg : Config) (w : World) (device : Option Device)
    (jid : String) (c : Client) (hreg : mapGet w.WhatsAppClient jid = some c) :
    WhatsAppInitClient cfg w device jid = { w with IndentXML := true } := by
  unfold WhatsAppInitClient
  simp only [hreg]

/-- The registry after a call for a key without handle. -/
theorem initClient_fresh_registry (cfg : Config) (w : World) (device : Option Device)
    (jid : String) (hreg : mapGet w.WhatsAppClient jid = none) :
    (WhatsAppInitClient cfg w device jid).WhatsAppClient =
      mapModify (mapModify (mapModify
        (if len cfg.WhatsAppClientProxyURL > 0 then
          mapModify
            (mapSet w.WhatsAppClient jid
              (NewClient cfg (match device with | none => NewDevice | some d => d) w.clients))
            jid (fun c => { c with proxyAddress := some cfg.WhatsAppClientProxyURL })
         else
          mapSet w.WhatsAppClient jid
            (NewClient cfg (match device with | none => NewDevice | some d => d) w.clients))
        jid (fun c => { c with EnableAutoReconnect := true }))
        jid (fun c => { c with AutoTrustIdentity := true }))
        jid (fun c => { c with DontSendSelfBroadcast := true }) := by
  unfold WhatsAppInitClient
  simp only [hreg]
  cases device <;> by_cases hp : len cfg.WhatsAppClientProxyURL > 0 <;>
    simp [hp, World.record]

theorem initClient_fresh_keys (cfg : Config) (w : World) (device : Option Device)
    (jid : String) (hreg : mapGet w.WhatsAppClient jid = none) :
    (WhatsAppInitClient cfg w device jid).WhatsAppClient.map Prod.fst =
      jid :: (mapDelete w.WhatsAppClient jid).map Prod.fst := by
  rw [initClient_fresh_registry cfg w device jid hreg]
  simp only [keys_mapModify]
  by_cases hp : len cfg.WhatsAppClientProxyURL > 0
  · simp only [hp, if_true, keys_mapModify]
    rfl
  · simp only [hp, if_false]
    rfl

theorem initClient_oneHandlePerKey (cfg : Config) (w : World) (device : Option Device)
    (jid : String) (h : oneHandlePerKey w) :
    oneHandlePerKey (WhatsAppInitClient cfg w device jid) := by
  unfold oneHandlePerKey at h ⊢
  cases hreg : mapGet w.WhatsAppClient jid with
  | some c => rw [initClient_registered cfg w device jid c hreg]; exact h
  | none =>
    rw [initClient_fresh_keys cfg w device jid hreg, List.nodup_cons]
    exact ⟨not_mem_keys_mapDelete _ _, nodup_keys_mapDelete _ _ h⟩

theorem logout_oneHandlePerKey (net : Net) (w : World) (jid : String)
    (h : oneHandlePerKey w) : oneHandlePerKey (WhatsAppLogout net w jid).2 := by
  unfold oneHandlePerKey at h ⊢
  cases hreg : mapGet w.WhatsAppClient jid with
  | none => simp [WhatsAppLogout, hreg]; exact h
  | some c =>
    rw [logout_registered net w jid c hreg]
    cases net.Logout (w.calls ++ [Call.SendPresence jid Presence.PresenceUnavailable]) jid with
    | none => exact nodup_keys_mapDelete _ _ h
    | some e1 =>
      simp only
      cases net.StoreDelete (w.calls ++
          [Call.SendPresence jid Presence.PresenceUnavailable, Call.Logout jid,
           Call.Disconnect jid]) jid with
      | none => exact nodup_keys_mapDelete _ _ h
      | some e2 => exact h

theorem runSteps_oneHandlePerKey (cfg : Config) (net : Net) (steps : List RegistryStep) :
    ∀ w : World, oneHandlePerKey w → oneHandlePerKey (runSteps cfg net w steps) := by
  induction steps with
  | nil => intro w h; exact h
  | cons step rest ih =>
    intro w h
    cases step with
    | init device jid =>
      exact ih _ (initClient_oneHandlePerKey cfg w device jid h)
    | logout jid =>
      exact ih _ (logout_oneHandlePerKey net w jid h)

/-- The handle a call creates for a key without handle. -/
theorem initClient_fresh_handle (cfg : Config) (w : World) (device : Option Device)
    (jid : String) (hreg : mapGet w.WhatsAppClient jid = none) :
    mapGet (WhatsAppInitClient cfg w device jid).WhatsAppClient jid =
      some { addr := w.clients,
             Store := (match device with | none => NewDevice | some d => d),
             proxyAddress :=
               if len cfg.WhatsAppClientProxyURL > 0 then some cfg.WhatsAppClientProxyURL
               else none,
             EnableAutoReconnect := true,
             AutoTrustIdentity := true,
             DontSendSelfBroadcast := true } := by
  rw [initClient_fresh_registry cfg w device jid hreg]
  simp only [mapGet_mapModify_self]
  by_cases hp : len cfg.WhatsAppClientProxyURL > 0
  · simp only [hp, if_true, mapGet_mapModify_self, mapGet_mapSet_self]
    rfl
  · simp only [hp, if_false, mapGet_mapSet_self]
    rfl

theorem initClient_indent (cfg : Config) (w : World) (device : Option Device)
    (jid : String) : (WhatsAppInitClient cfg w device jid).IndentXML = true := by
  unfold WhatsAppInitClient
  cases hreg : mapGet w.WhatsAppClient jid with
  | some c => simp only [hreg]
  | none =>
    simp only [hreg]
    cases device <;> by_cases hp : len cfg.WhatsAppClientProxyURL > 0 <;>
      simp [hp, World.record]

theorem world_set_indent (w : World) (h : w.IndentXML = true) :
    { w with IndentXML := true } = w := by
  cases w
  simp at h
  simp [h]

theorem initClient_twice (cfg : Config) (w : World) (d1 d2 : Option Device) (jid : String) :
    WhatsAppInitClient cfg (WhatsAppInitClient cfg w d1 jid) d2 jid =
      WhatsAppInitClient cfg w d1 jid := by
  have hsome : ∃ c, mapGet (WhatsAppInitClient cfg w d1 jid).WhatsAppClient jid = some c := by
    cases hreg : mapGet w.WhatsAppClient jid with
    | some c =>
      refine ⟨c, ?_⟩
      rw [initClient_registered cfg w d1 jid c hreg]
      exact hreg
    | none => exact ⟨_, initClient_fresh_handle cfg w d1 jid hreg⟩
  obtain ⟨c, hc⟩ := hsome
  rw [initClient_registered cfg _ d2 jid c hc]
  exact world_set_indent _ (initClient_indent cfg w d1 jid)

/-- C9: `WhatsAppInitClient` is idempotent per key.  When the key already has a
handle, a further call with any device argument leaves the registry unchanged,
keeps the same handle with the same flags, creates no device record (the call
log and the count of constructed handles do not change), and calling twice is
the same as calling once.  When the key has no handle, the handle created has
auto-reconnect on, auto-trust-identity on and self-broadcast suppressed.  After
any sequence of creations and logouts, from a registry with at most one handle
per key (the empty one in particular), the registry has at most one handle per
key. -/
theorem C9_init_client_idempotent :
    (∀ (cfg : Config) (w : World) (device : Option Device) (jid : String) (c : Client),
      mapGet w.WhatsAppClient jid = some c →
      (WhatsAppInitClient cfg w device jid).WhatsAppClient = w.WhatsAppClient ∧
      mapGet (WhatsAppInitClient cfg w device jid).WhatsAppClient jid = some c ∧
      (WhatsAppInitClient cfg w device jid).calls = w.calls ∧
      ((WhatsAppInitClient cfg w device jid).calls.filter isNewDevice).length =
        (w.calls.filter isNewDevice).length ∧
      (WhatsAppInitClient cfg w device jid).clients = w.clients) ∧
    (∀ (cfg : Config) (w : World) (d1 d2 : Option Device) (jid : String),
      WhatsAppInitClient cfg (WhatsAppInitClient cfg w d1 jid) d2 jid =
        WhatsAppInitClient cfg w d1 jid) ∧
    (∀ (cfg : Config) (w : World) (device : Option Device) (jid : String),
      mapGet w.WhatsAppClient jid = none →
      ∃ c : Client,
        mapGet (WhatsAppInitClient cfg w device jid).WhatsAppClient jid = some c ∧
        c.EnableAutoReconnect = true ∧ c.AutoTrustIdentity = true ∧
        c.DontSendSelfBroadcast = true ∧ c.addr = w.clients) ∧
    (∀ (cfg : Config) (net : Net) (w : World) (steps : List RegistryStep),
      oneHandlePerKey w → oneHandlePerKey (runSteps cfg net w steps)) ∧
    (∀ (cfg : Config) (net : Net) (steps : List RegistryStep),
      oneHandlePerKey (runSteps cfg net emptyWorld steps)) := by
  refine ⟨?_, initClient_twice, ?_, ?_, ?_⟩
  · intro cfg w device jid c hreg
    rw [initClient_registered cfg w device jid c hreg]
    exact ⟨rfl, hreg, rfl, rfl, rfl⟩
  · intro cfg w device jid hreg
    exact ⟨_, initClient_fresh_handle cfg w device jid hreg, rfl, rfl, rfl, rfl⟩
  · intro cfg net w steps h
    exact runSteps_oneHandlePerKey cfg net steps w h
  · intro cfg net steps
    exact runSteps_oneHandlePerKey cfg net steps emptyWorld List.nodup_nil

/-- Witness of C9: a second call for the key of the one-session world, this time
with a device argument. -/
theorem C9_init_client_idempotent_witness :
    mapGet oneSessionWorld.WhatsAppClient "620000000001" = some linkedClient ∧
    WhatsAppInitClient plainConfig oneSessionWorld (some NewDevice) "620000000001" =
      oneSessionWorld ∧
    (WhatsAppInitClient plainConfig oneSessionWorld (some NewDevice)
        "620000000001").WhatsAppClient = oneSessionWorld.WhatsAppClient ∧
    mapGet (WhatsAppInitClient plainConfig oneSessionWorld (some NewDevice)
        "620000000001").WhatsAppClient "620000000001" = some linkedClient ∧
    (WhatsAppInitClient plainConfig oneSessionWorld (some NewDevice)
        "620000000001").calls = oneSessionWorld.calls ∧
    ((WhatsAppInitClient plainConfig oneSessionWorld (some NewDevice)
        "620000000001").calls.filter isNewDevice).length =
      (oneSessionWorld.calls.filter isNewDevice).length ∧
    (WhatsAppInitClient plainConfig oneSessionWorld (some NewDevice)
        "620000000001").clients = oneSessionWorld.clients :=
  ⟨by decide, by decide,
   C9_init_client_idempotent.1 plainConfig oneSessionWorld (some NewDevice)
     "620000000001" linkedClient (by decide)⟩

/-! ## Group leave -/

/-- Group leave returns without error only after delegating the leave call for
an address of the group server. -/
theorem groupLeave_success (net : Net) (w : World) (jid raw : String)
    (h : (WhatsAppGroupLeave net w jid raw).1 = Outcome.ret none) :
    ∃ remote : JID, WhatsAppComposeJID raw = Outcome.ret remote ∧
      remote.Server = GroupServer ∧
      (WhatsAppGroupLeave net w jid raw).2 = w.record (Call.LeaveGroup jid remote) := by
  unfold WhatsAppGroupLeave at h ⊢
  cases hreg : mapGet w.WhatsAppClient jid with
  | none => rw [hreg] at h; simp at h
  | some c =>
    rw [hreg] at h
    simp only at h ⊢
    cases hok : WhatsAppIsClientOK net w jid with
    | some e => rw [hok] at h; simp at h
    | none =>
      rw [hok] at h
      simp only at h ⊢
      cases hcomp : WhatsAppComposeJID raw with
      | panic msg =>
        have hc : WhatsAppCheckJID net w jid raw = (Outcome.panic msg, w) := by
          simp [WhatsAppCheckJID, hreg, hcomp]
        rw [hc] at h
        simp at h
      | ret remote =>
        by_cases hg : remote.Server = GroupServer
        · refine ⟨remote, rfl, hg, ?_⟩
          rw [checkJID_group net w jid raw c remote hreg hcomp hg]
          simp [hg]
        · exfalso
          rw [checkJID_individual net w jid raw c remote hreg hcomp hg] at h
          cases h2 : (net.IsOnWhatsApp w.calls jid (gateQuery remote)).2 with
          | some e => rw [h2] at h; simp at h
          | none =>
            cases h1 : (net.IsOnWhatsApp w.calls jid (gateQuery remote)).1 with
            | nil => rw [h2, h1] at h; simp at h
            | cons info rest =>
              rw [h2, h1] at h
              by_cases hp : (info.IsIn && !info.JID.IsEmpty) = true
              · simp [hp, hg] at h
              · simp [hp] at h

/-- Group leave for an address that is not of the group server: the gate's
query is the only call, and the verdict of the gate decides the error. -/
theorem groupLeave_individual (net : Net) (w : World) (jid raw : String) (c : Client)
    (remote : JID) (hreg : mapGet w.WhatsAppClient jid = some c)
    (hok : WhatsAppIsClientOK net w jid = none)
    (hcomp : WhatsAppComposeJID raw = Outcome.ret remote)
    (hg : remote.Server ≠ GroupServer) :
    WhatsAppGroupLeave net w jid raw =
      (match (net.IsOnWhatsApp w.calls jid (gateQuery remote)).2 with
        | none =>
          match (net.IsOnWhatsApp w.calls jid (gateQuery remote)).1 with
          | [] => Outcome.panic panicIndex
          | info :: _ =>
            if info.IsIn && !info.JID.IsEmpty then Outcome.ret (some errNotGroupServer)
            else Outcome.ret (some errNotRegistered)
        | some _ => Outcome.ret (some errNotRegistered),
       w.record (Call.IsOnWhatsApp jid (gateQuery remote))) := by
  unfold WhatsAppGroupLeave
  simp only [hreg, hok]
  rw [checkJID_individual net w jid raw c remote hreg hcomp hg]
  cases h2 : (net.IsOnWhatsApp w.calls jid (gateQuery remote)).2 with
  | some e => rfl
  | none =>
    cases h1 : (net.IsOnWhatsApp w.calls jid (gateQuery remote)).1 with
    | nil => rfl
    | cons info rest =>
      by_cases hp : (info.IsIn && !info.JID.IsEmpty) = true
      · simp [hp, hg]
      · simp [hp]

/-- C10, the claim as stated fails: on a healthy session, leaving with the bare
individual number `"620000000002"` that the network does not know returns the
error "WhatsApp Personal ID is Not Registered" of the registration gate, not
the error "WhatsApp Group ID is Not Group Server". -/
theorem C10_group_leave_counterexample :
    WhatsAppIsClientOK (scriptedNet true true none none unknownAnswer none none)
      oneSessionWorld "620000000001" = none ∧
    WhatsAppComposeJID "620000000002" =
      Outcome.ret (NewJID "620000000002" DefaultUserServer) ∧
    DefaultUserServer ≠ GroupServer ∧
    WhatsAppGroupLeave (scriptedNet true true none none unknownAnswer none none)
        oneSessionWorld "620000000001" "620000000002" =
      (Outcome.ret (some "WhatsApp Personal ID is Not Registered"),
       oneSessionWorld.record
        (Call.IsOnWhatsApp "620000000001" ["+620000000002@s.whatsapp.net"])) ∧
    (WhatsAppGroupLeave (scriptedNet true true none none unknownAnswer none none)
        oneSessionWorld "620000000001" "620000000002").1 ≠
      Outcome.ret (some "WhatsApp Group ID is Not Group Server") := by
  refine ⟨by decide, by decide, by decide, by decide, by decide⟩

/-- C10, amended: for a healthy session and a raw id with a non-empty local part
that does not classify as Group, `WhatsAppGroupLeave` makes the gate's
is-on-network query and no other call, so it never delegates a leave call, and
it does not succeed: it returns "WhatsApp Group ID is Not Group Server" when
the answer is a positive, non-empty match, and "WhatsApp Personal ID is Not
Registered" when the query fails or the answer is negative.  It returns without
error only when the normalised address is classified Group. -/
theorem C10_group_leave_amended (net : Net) (w : World) (jid raw : String) (c : Client)
    (hreg : mapGet w.WhatsAppClient jid = some c)
    (hok : WhatsAppIsClientOK net w jid = none)
    (hraw : localPart raw ≠ "") :
    ∃ remote : JID, WhatsAppComposeJID raw = Outcome.ret remote ∧
      (remote.Server ≠ GroupServer →
        (WhatsAppGroupLeave net w jid raw).2 =
          w.record (Call.IsOnWhatsApp jid (gateQuery remote)) ∧
        (WhatsAppGroupLeave net w jid raw).2.calls.filter isLeaveGroup =
          w.calls.filter isLeaveGroup ∧
        (WhatsAppGroupLeave net w jid raw).1 ≠ Outcome.ret none ∧
        (positiveMatch (net.IsOnWhatsApp w.calls jid (gateQuery remote)) = true →
          (WhatsAppGroupLeave net w jid raw).1 =
            Outcome.ret (some "WhatsApp Group ID is Not Group Server")) ∧
        ((queryErrors (net.IsOnWhatsApp w.calls jid (gateQuery remote)) = true ∨
            negativeAnswer (net.IsOnWhatsApp w.calls jid (gateQuery remote)) = true) →
          (WhatsAppGroupLeave net w jid raw).1 =
            Outcome.ret (some "WhatsApp Personal ID is Not Registered"))) ∧
      ((WhatsAppGroupLeave net w jid raw).1 = Outcome.ret none →
        remote.Server = GroupServer) := by
  obtain ⟨remote, hcomp, -⟩ := compose_returns raw hraw
  refine ⟨remote, hcomp, ?_, ?_⟩
  · intro hg
    have hne : (WhatsAppGroupLeave net w jid raw).1 ≠ Outcome.ret none := by
      intro hs
      obtain ⟨r2, hc2, hg2, -⟩ := groupLeave_success net w jid raw hs
      rw [hcomp] at hc2
      injection hc2 with hc2
      exact hg (hc2 ▸ hg2)
    refine ⟨?_, ?_, hne, ?_, ?_⟩
    · rw [groupLeave_individual net w jid raw c remote hreg hok hcomp hg]
    · rw [groupLeave_individual net w jid raw c remote hreg hok hcomp hg]
      simp [World.record, isLeaveGroup]
    · intro hp
      rw [groupLeave_individual net w jid raw c remote hreg hok hcomp hg]
      unfold positiveMatch at hp
      cases h2 : (net.IsOnWhatsApp w.calls jid (gateQuery remote)).2 with
      | some e => rw [h2] at hp; simp at hp
      | none =>
        cases h1 : (net.IsOnWhatsApp w.calls jid (gateQuery remote)).1 with
        | nil => rw [h2, h1] at hp; simp at hp
        | cons info rest =>
          rw [h2, h1] at hp
          simp only at hp
          simp only [hp, if_true]
          rfl
    · intro hn
      rw [groupLeave_individual net w jid raw c remote hreg hok hcomp hg]
      unfold queryErrors negativeAnswer at hn
      cases h2 : (net.IsOnWhatsApp w.calls jid (gateQuery remote)).2 with
      | some e => rfl
      | none =>
        cases h1 : (net.IsOnWhatsApp w.calls jid (gateQuery remote)).1 with
        | nil => rw [h2, h1] at hn; simp at hn
        | cons info rest =>
          rw [h2, h1] at hn
          have hf : (info.IsIn && !info.JID.IsEmpty) = false := by
            cases hi : info.IsIn <;> cases he : info.JID.IsEmpty <;> simp [hi, he] at hn ⊢
          simp only [hf]
          rfl
  · intro hs
    obtain ⟨r2, hc2, hg2, -⟩ := groupLeave_success net w jid raw hs
    rw [hcomp] at hc2
    injection hc2 with hc2
    exact hc2 ▸ hg2

/-- Witness of C10 amended: the bare number `"620000000002"`, known to the
network, on the one-session world. -/
theorem C10_group_leave_amended_witness :
    mapGet oneSessionWorld.WhatsAppClient "620000000001" = some linkedClient ∧
    WhatsAppIsClientOK (scriptedNet true true none none registeredAnswer none none)
      oneSessionWorld "620000000001" = none ∧
    localPart "620000000002" ≠ "" ∧
    WhatsAppGroupLeave (scriptedNet true true none none registeredAnswer none none)
        oneSessionWorld "620000000001" "620000000002" =
      (Outcome.ret (some "WhatsApp Group ID is Not Group Server"),
       oneSessionWorld.record
        (Call.IsOnWhatsApp "620000000001" ["+620000000002@s.whatsapp.net"])) ∧
    WhatsAppGroupLeave (scriptedNet true true none none registeredAnswer none none)
        oneSessionWorld "620000000001" "120363040000000000@g.us" =
      (Outcome.ret none,
       oneSessionWorld.record
        (Call.LeaveGroup "620000000001" (NewJID "120363040000000000" GroupServer))) ∧
    ∃ remote : JID, WhatsAppComposeJID "620000000002" = Outcome.ret remote :=
  ⟨by decide, by decide, by decide, by decide, by decide,
   (C10_group_leave_amended (scriptedNet true true none none registeredAnswer none none)
      oneSessionWorld "620000000001" "620000000002" linkedClient
      (by decide) (by decide) (by decide)).imp (fun _ h => h.1)⟩

/-! ## Linking controller -/

/-- What reconnect does for a registered key: disconnect, connect, and the
answer of the connect; the device identity is not looked at. -/
theorem reconnect_registered (net : Net) (w : World) (jid : String) (c : Client)
    (hreg : mapGet w.WhatsAppClient jid = some c) :
    WhatsAppReconnect net w jid =
      (net.Connect (w.calls ++ [Call.Disconnect jid]) jid,
       { w with calls := w.calls ++ [Call.Disconnect jid, Call.Connect jid] }) := by
  unfold WhatsAppReconnect
  simp only [hreg, World.record, List.append_assoc, List.singleton_append]
  cases net.Connect (w.calls ++ [Call.Disconnect jid]) jid <;> rfl

/-- C11: the code at the failing input.  On a registered key whose handle has no
device identity, `WhatsAppReconnect` disconnects, connects, and returns the
answer of the connect (here success); it does not return the error
"WhatsApp Client Store ID is Empty, Please Re-Login and Scan QR Code Again". -/
theorem C11_reconnect_without_identity :
    mapGet unlinkedWorld.WhatsAppClient "620000000001" = some unlinkedClient ∧
    unlinkedClient.Store.ID = none ∧
    WhatsAppReconnect (linkingNet none) unlinkedWorld "620000000001" =
      (none,
       { unlinkedWorld with
         calls := [Call.Disconnect "620000000001", Call.Connect "620000000001"] }) ∧
    (WhatsAppReconnect (linkingNet none) unlinkedWorld "620000000001").1 ≠
      some "WhatsApp Client Store ID is Empty, Please Re-Login and Scan QR Code Again" ∧
    Call.Connect "620000000001" ∈
      (WhatsAppReconnect (linkingNet none) unlinkedWorld "620000000001").2.calls := by
  refine ⟨by decide, by decide, by decide, by decide, by decide⟩

/-- Both login flows on a handle with a device identity: two disconnects, one
connect, and the answer of the connect decides the result. -/
theorem login_with_identity (img : Imaging) (cfg : Config) (net : Net) (w : World)
    (jid : String) (c : Client) (id : JID)
    (hreg : mapGet w.WhatsAppClient jid = some c) (hid : c.Store.ID = some id) :
    WhatsAppLogin img net w jid =
      (match net.Connect (w.calls ++ [Call.Disconnect jid, Call.Disconnect jid]) jid with
        | some e => Run.returns ("", 0, some e)
        | none => Run.returns ("WhatsApp Client is Reconnected", 0, none),
       { w with calls := w.calls ++
          [Call.Disconnect jid, Call.Disconnect jid, Call.Connect jid] }) ∧
    WhatsAppLoginPair cfg net w jid =
      (match net.Connect (w.calls ++ [Call.Disconnect jid, Call.Disconnect jid]) jid with
        | some e => ("", 0, some e)
        | none => ("WhatsApp Client is Reconnected", 0, none),
       { w with calls := w.calls ++
          [Call.Disconnect jid, Call.Disconnect jid, Call.Connect jid] }) := by
  have hreg1 : mapGet (w.record (Call.Disconnect jid)).WhatsAppClient jid = some c := hreg
  constructor
  · unfold WhatsAppLogin
    simp only [hreg, hid]
    rw [reconnect_registered net _ jid c hreg1]
    simp only [World.record, List.append_assoc, List.singleton_append, List.cons_append,
      List.nil_append]
    cases net.Connect (w.calls ++ [Call.Disconnect jid, Call.Disconnect jid]) jid <;> rfl
  · unfold WhatsAppLoginPair
    simp only [hreg, hid]
    rw [reconnect_registered net _ jid c hreg1]
    simp only [World.record, List.append_assoc, List.singleton_append, List.cons_append,
      List.nil_append]
    cases net.Connect (w.calls ++ [Call.Disconnect jid, Call.Disconnect jid]) jid <;> rfl

theorem dataURI_ne_reconnectedText (image : String) :
    "data:image/png;base64," ++ image ≠ "WhatsApp Client is Reconnected" := by
  intro h
  have hd := congrArg String.data h
  rw [String.data_append] at hd
  simp at hd

/-- The scannable-code flow on a handle without device identity: a result
without error carries the data URI of the rendered code. -/
theorem login_without_identity (img : Imaging) (net : Net) (w : World) (jid : String)
    (c : Client) (hreg : mapGet w.WhatsAppClient jid = some c) (hid : c.Store.ID = none)
    (s : String) (t : Int)
    (h : (WhatsAppLogin img net w jid).1 = Run.returns (s, t, none)) :
    ∃ image : String, s = "data:image/png;base64," ++ image := by
  unfold WhatsAppLogin at h
  simp only [hreg, hid] at h
  split at h
  · simp at h
  · split at h
    · simp at h
    · rename_i qrImage qrTimeout _
      simp only [Run.returns.injEq, Prod.mk.injEq] at h
      exact ⟨qrImage, h.1.symm⟩

/-- The pairing flow on a handle without device identity: a result without
error has timeout 160. -/
theorem loginPair_without_identity (cfg : Config) (net : Net) (w : World) (jid : String)
    (c : Client) (hreg : mapGet w.WhatsAppClient jid = some c) (hid : c.Store.ID = none)
    (s : String) (t : Int)
    (h : (WhatsAppLoginPair cfg net w jid).1 = (s, t, none)) : t = 160 := by
  unfold WhatsAppLoginPair at h
  simp only [hreg, hid] at h
  split at h
  · simp at h
  · split at h
    · simp at h
    · simp only [Prod.mk.injEq] at h
      exact h.2.1.symm

/-- C12: both login flows on a registered key.  When the handle has a device
identity, the calls made are two disconnects and one connect, so no
code-delivery stream is opened and no pairing code is requested; the flow
returns "WhatsApp Client is Reconnected" with timeout 0 and no error exactly
when the connect succeeds, and the empty string with the connect's error
otherwise.  When the handle has no device identity, a result without error is
never of that shape: the scannable-code flow's text starts with
"data:image/png;base64," and the pairing flow's timeout is 160. -/
theorem C12_login_existing_device (img : Imaging) (cfg : Config) (net : Net) (w : World)
    (jid : String) (c : Client) (hreg : mapGet w.WhatsAppClient jid = some c) :
    (∀ id : JID, c.Store.ID = some id →
      (WhatsAppLogin img net w jid).2.calls =
        w.calls ++ [Call.Disconnect jid, Call.Disconnect jid, Call.Connect jid] ∧
      (WhatsAppLoginPair cfg net w jid).2.calls =
        w.calls ++ [Call.Disconnect jid, Call.Disconnect jid, Call.Connect jid] ∧
      (net.Connect (w.calls ++ [Call.Disconnect jid, Call.Disconnect jid]) jid = none →
        (WhatsAppLogin img net w jid).1 =
          Run.returns ("WhatsApp Client is Reconnected", 0, none) ∧
        (WhatsAppLoginPair cfg net w jid).1 = ("WhatsApp Client is Reconnected", 0, none)) ∧
      (∀ e : String,
        net.Connect (w.calls ++ [Call.Disconnect jid, Call.Disconnect jid]) jid = some e →
        (WhatsAppLogin img net w jid).1 = Run.returns ("", 0, some e) ∧
        (WhatsAppLoginPair cfg net w jid).1 = ("", 0, some e)) ∧
      ((WhatsAppLogin img net w jid).1 =
          Run.returns ("WhatsApp Client is Reconnected", 0, none) ↔
        net.Connect (w.calls ++ [Call.Disconnect jid, Call.Disconnect jid]) jid = none) ∧
      ((WhatsAppLoginPair cfg net w jid).1 = ("WhatsApp Client is Reconnected", 0, none) ↔
        net.Connect (w.calls ++ [Call.Disconnect jid, Call.Disconnect jid]) jid = none)) ∧
    (c.Store.ID = none →
      (∀ (s : String) (t : Int),
        (WhatsAppLogin img net w jid).1 = Run.returns (s, t, none) →
        (∃ image : String, s = "data:image/png;base64," ++ image) ∧
        s ≠ "WhatsApp Client is Reconnected") ∧
      (∀ (s : String) (t : Int),
        (WhatsAppLoginPair cfg net w jid).1 = (s, t, none) →
        t = 160 ∧ (s, t, (none : GoError)) ≠ ("WhatsApp Client is Reconnected", 0, none))) := by
  constructor
  · intro id hid
    obtain ⟨h1, h2⟩ := login_with_identity img cfg net w jid c id hreg hid
    rw [h1, h2]
    cases hc : net.Connect (w.calls ++ [Call.Disconnect jid, Call.Disconnect jid]) jid with
    | none => simp
    | some e => simp
  · intro hid
    constructor
    · intro s t h
      obtain ⟨image, himg⟩ := login_without_identity img net w jid c hreg hid s t h
      exact ⟨⟨image, himg⟩, himg ▸ dataURI_ne_reconnectedText image⟩
    · intro s t h
      have ht := loginPair_without_identity cfg net w jid c hreg hid s t h
      refine ⟨ht, ?_⟩
      intro heq
      simp only [Prod.mk.injEq] at heq
      rw [ht] at heq
      exact absurd heq.2.1 (by decide)

/-- Witness of C12: the linked handle of the one-session world, connect
succeeding. -/
theorem C12_login_existing_device_witness :
    mapGet oneSessionWorld.WhatsAppClient "620000000001" = some linkedClient ∧
    linkedClient.Store.ID = some (NewJID "620000000001" DefaultUserServer) ∧
    WhatsAppLogin plainImaging (linkingNet none) oneSessionWorld "620000000001" =
      (Run.returns ("WhatsApp Client is Reconnected", 0, none),
       { oneSessionWorld with
         calls := [Call.Disconnect "620000000001", Call.Disconnect "620000000001",
                   Call.Connect "620000000001"] }) ∧
    WhatsAppLogin plainImaging (linkingNet none) unlinkedWorld "620000000001" =
      (Run.returns ("data:image/png;base64,iVBORw0KGgo=", 60, none),
       { unlinkedWorld with
         calls := [Call.Disconnect "620000000001", Call.GetQRChannel "620000000001",
                   Call.Connect "620000000001"] }) ∧
    (WhatsAppLoginPair plainConfig (linkingNet none) unlinkedWorld "620000000001").1 =
      ("ABCD-EFGH", 160, none) ∧
    (WhatsAppLogin plainImaging (linkingNet none) oneSessionWorld "620000000001").1 =
        Run.returns ("WhatsApp Client is Reconnected", 0, none) ∧
    (WhatsAppLoginPair plainConfig (linkingNet none) oneSessionWorld "620000000001").1 =
        ("WhatsApp Client is Reconnected", 0, none) :=
  ⟨by decide, by decide, by decide, by decide, by decide,
   ((C12_login_existing_device plainImaging plainConfig (linkingNet none) oneSessionWorld
      "620000000001" linkedClient (by decide)).1
      (NewJID "620000000001" DefaultUserServer) (by decide)).2.2.1 rfl⟩

/-! ## Normaliser on a string that starts with `@` -/

/-- The normaliser returns exactly when the part before the first `@` is not
empty. -/
theorem decompose_returns_iff (raw : String) :
    (∃ s : String, WhatsAppDecomposeJID raw = Outcome.ret s) ↔
      raw.data.takeWhile (fun c => c != '@') ≠ [] := by
  rw [decompose_unfold]
  cases hd : raw.data.takeWhile (fun c => c != '@') with
  | nil => simp
  | cons c rest =>
    by_cases hc : c = '+'
    · simp [hc]
    · simp [hc]

/-- C13: the code at the failing input.  The raw string `"@g.us"` is not empty,
yet nothing stands before its `@`, so the access `id[0]` is out of range:
`WhatsAppDecomposeJID` and `WhatsAppComposeJID` panic, and so does a text send
to that target on a healthy session. -/
theorem C13_decompose_at_sign_panics :
    "@g.us" ≠ "" ∧
    len "@g.us" = 5 ∧
    WhatsAppDecomposeJID "@g.us" =
      Outcome.panic "runtime error: index out of range [0] with length 0" ∧
    WhatsAppComposeJID "@g.us" =
      Outcome.panic "runtime error: index out of range [0] with length 0" ∧
    WhatsAppSendText (scriptedNet true true none none registeredAnswer none none)
        oneSessionWorld "620000000001" "@g.us" "hello" =
      (Outcome.panic "runtime error: index out of range [0] with length 0", oneSessionWorld) := by
  refine ⟨by decide, by decide, by decide, by decide, by decide⟩

/-! ## Contact payload -/

theorem msgVCard_lines (contactName contactNumber : String) :
    msgVCard contactName contactNumber =
      String.intercalate "\n"
        [ "BEGIN:VCARD", "VERSION:3.0", "N:;" ++ contactName ++ ";;;",
          "FN:" ++ contactName,
          "TEL;type=CELL;waid=" ++ contactNumber ++ ":+" ++ contactNumber,
          "END:VCARD" ] := by
  apply String.ext
  simp [msgVCard, Sprintf, sprintfChars, String.intercalate, String.intercalate.go,
    String.data_append]

/-- C14: for every contact name and number, the payload `WhatsAppSendContact`
builds has the contact name as display name and, as vCard, the six lines
`BEGIN:VCARD`, `VERSION:3.0`, `N:;<name>;;;`, `FN:<name>`,
`TEL;type=CELL;waid=<number>:+<number>`, `END:VCARD` joined by single newlines
with no trailing newline; on a healthy session whose target passes the gate
this payload is the one submitted. -/
theorem C14_contact_vcard (net : Net) (w : World) (jid rjid : String)
    (contactName contactNumber : String) :
    msgVCard contactName contactNumber =
      String.intercalate "\n"
        [ "BEGIN:VCARD", "VERSION:3.0", "N:;" ++ contactName ++ ";;;",
          "FN:" ++ contactName,
          "TEL;type=CELL;waid=" ++ contactNumber ++ ":+" ++ contactNumber,
          "END:VCARD" ] ∧
    WhatsAppSendContact net w jid rjid contactName contactNumber =
      sendWith net w jid rjid
        (Message.ContactMessage contactName
          (String.intercalate "\n"
            [ "BEGIN:VCARD", "VERSION:3.0", "N:;" ++ contactName ++ ";;;",
              "FN:" ++ contactName,
              "TEL;type=CELL;waid=" ++ contactNumber ++ ":+" ++ contactNumber,
              "END:VCARD" ])) ∧
    (∀ (c : Client) (remote : JID),
      mapGet w.WhatsAppClient jid = some c →
      WhatsAppIsClientOK net w jid = none →
      (WhatsAppCheckJID net w jid rjid).1 = Outcome.ret (remote, none) →
      ∃ id : String,
        Call.SendMessage jid remote
          (Message.ContactMessage contactName
            (String.intercalate "\n"
              [ "BEGIN:VCARD", "VERSION:3.0", "N:;" ++ contactName ++ ";;;",
                "FN:" ++ contactName,
                "TEL;type=CELL;waid=" ++ contactNumber ++ ":+" ++ contactNumber,
                "END:VCARD" ])) id ∈
          (WhatsAppSendContact net w jid rjid contactName contactNumber).2.calls) ∧
    msgVCard "Ann" "620000000003" =
      "BEGIN:VCARD\nVERSION:3.0\nN:;Ann;;;\nFN:Ann\nTEL;type=CELL;waid=620000000003:+620000000003\nEND:VCARD" := by
  refine ⟨msgVCard_lines contactName contactNumber, ?_, ?_, by decide⟩
  · unfold WhatsAppSendContact
    rw [msgVCard_lines]
  · intro c remote hreg hok hgate
    have hg : WhatsAppCheckJID net w jid rjid =
        (Outcome.ret (remote, none), (WhatsAppCheckJID net w jid rjid).2) :=
      Prod.ext hgate rfl
    unfold WhatsAppSendContact
    rw [msgVCard_lines]
    obtain ⟨id, hw, -⟩ := sendWith_after_gate net w _ jid rjid c remote
      (Message.ContactMessage contactName
        (String.intercalate "\n"
          [ "BEGIN:VCARD", "VERSION:3.0", "N:;" ++ contactName ++ ";;;",
            "FN:" ++ contactName,
            "TEL;type=CELL;waid=" ++ contactNumber ++ ":+" ++ contactNumber,
            "END:VCARD" ])) hreg hok hg
    refine ⟨id, ?_⟩
    rw [hw]
    simp

/-- Witness of C14: a contact sent on the one-session world. -/
theorem C14_contact_vcard_witness :
    mapGet oneSessionWorld.WhatsAppClient "620000000001" = some linkedClient ∧
    WhatsAppIsClientOK (scriptedNet true true none none registeredAnswer none none)
      oneSessionWorld "620000000001" = none ∧
    (WhatsAppCheckJID (scriptedNet true true none none registeredAnswer none none)
      oneSessionWorld "620000000001" "620000000002").1 =
        Outcome.ret (NewJID "620000000002" DefaultUserServer, none) ∧
    ∃ id : String,
      Call.SendMessage "620000000001" (NewJID "620000000002" DefaultUserServer)
        (Message.ContactMessage "Ann"
          (String.intercalate "\n"
            [ "BEGIN:VCARD", "VERSION:3.0", "N:;" ++ "Ann" ++ ";;;",
              "FN:" ++ "Ann",
              "TEL;type=CELL;waid=" ++ "620000000003" ++ ":+" ++ "620000000003",
              "END:VCARD" ])) id ∈
        (WhatsAppSendContact (scriptedNet true true none none registeredAnswer none none)
          oneSessionWorld "620000000001" "620000000002" "Ann" "620000000003").2.calls :=
  ⟨by decide, by decide, by decide,
   (C14_contact_vcard (scriptedNet true true none none registeredAnswer none none)
      oneSessionWorld "620000000001" "620000000002" "Ann" "620000000003").2.2.1
      linkedClient (NewJID "620000000002" DefaultUserServer)
      (by decide) (by decide) (by decide)⟩

/-! ## Empty answer of the is-on-network query -/

/-- C15: the code at the failing input.  For a registered session and the
Individual address of `"620000000002"`, when the is-on-network query returns
without error and with an empty result list, `WhatsAppGetJID` panics on the
access to the first result instead of returning the empty address, and
`WhatsAppCheckJID` panics too instead of returning the Not Registered error. -/
theorem C15_empty_answer_panics :
    mapGet oneSessionWorld.WhatsAppClient "620000000001" = some linkedClient ∧
    WhatsAppComposeJID "620000000002" =
      Outcome.ret (NewJID "620000000002" DefaultUserServer) ∧
    WhatsAppGetJID (scriptedNet true true none none emptyAnswer none none)
        oneSessionWorld "620000000001" "620000000002@s.whatsapp.net" =
      (Outcome.panic "runtime error: index out of range [0] with length 0",
       oneSessionWorld.record
        (Call.IsOnWhatsApp "620000000001" ["+620000000002@s.whatsapp.net"])) ∧
    (WhatsAppGetJID (scriptedNet true true none none emptyAnswer none none)
        oneSessionWorld "620000000001" "620000000002@s.whatsapp.net").1 ≠
      Outcome.ret EmptyJID ∧
    WhatsAppCheckJID (scriptedNet true true none none emptyAnswer none none)
        oneSessionWorld "620000000001" "620000000002" =
      (Outcome.panic "runtime error: index out of range [0] with length 0",
       oneSessionWorld.record
        (Call.IsOnWhatsApp "620000000001" ["+620000000002@s.whatsapp.net"])) ∧
    (WhatsAppCheckJID (scriptedNet true true none none emptyAnswer none none)
        oneSessionWorld "620000000001" "620000000002").1 ≠
      Outcome.ret (EmptyJID, some "WhatsApp Personal ID is Not Registered") := by
  refine ⟨by decide, by decide, by decide, by decide, by decide, by decide⟩

end WhatsApp
